import Mathlib

/-!
# Playback core of the blackbox log viewer (app/js/main.js)

A shallow embedding of the closure state of `BlackboxLogViewer` and of the
functions and event handlers that read and write it.

Conventions of the embedding:

* JavaScript numbers are exact rationals (`ℚ`); `Date.now()` is an integer
  number of milliseconds (`ℤ`).  `NaN` has no counterpart, and the rounding of
  IEEE doubles is not modelled: nothing below is about the last bits of a
  computed time.
* A variable that holds `false` or a number (`lastRenderTime`,
  `videoExportInTime`, `videoExportOutTime`) is an `Option`.
* `flightLog` is `undefined` until a log file is read and `video` is the
  `<video>` element of the page, if the page has one: both are `Option`s, and a
  property access on a missing one is the `TypeError` of the source.  A function
  that can throw returns `Except Viewer Viewer`: `.ok s` is normal completion in
  state `s`, `.error s` is an uncaught exception raised in state `s` (the
  writes made before the throw persist, as in JavaScript).
* `video.currentTime` is a plain readable and writable property.
* `requestAnimationFrame(animationLoop)` adds one to `pendingFrames`, the number
  of callbacks the host still has to run; the host running one takes one away.
* Calls made on the external renderer (`graph`) and on the seek bar are
  recorded, in order, in `calls`.  DOM writes through jQuery are not modelled.
-/

namespace BlackboxLogViewer

/-! ## Constants (main.js 40-52) -/

def GRAPH_STATE_PAUSED : Nat := 0
def GRAPH_STATE_PLAY : Nat := 1

def SMALL_JUMP_TIME : ℚ := 100 * 1000
def PLAYBACK_MIN_RATE : ℚ := 5
def PLAYBACK_MAX_RATE : ℚ := 300
def PLAYBACK_DEFAULT_RATE : ℚ := 100
def PLAYBACK_RATE_STEP : ℚ := 5
def GRAPH_MIN_ZOOM : ℚ := 10
def GRAPH_MAX_ZOOM : ℚ := 1000
def GRAPH_DEFAULT_ZOOM : ℚ := 100
def GRAPH_ZOOM_STEP : ℚ := 10

/-! ## State -/

/-- The part of the external `FlightLog` object the viewer reads: the time range of the
log that is currently open (`getMinTime()`, `getMaxTime()`), in microseconds. -/
structure FlightLog where
  minTime : ℚ
  maxTime : ℚ
deriving DecidableEq

/-- The properties of the `<video>` element the viewer touches.  `duration` is `none`
while the element reports `NaN`; `paused` is cleared by `play()` and set by `pause()`. -/
structure Video where
  currentTime : ℚ
  playbackRate : ℚ
  paused : Bool
  duration : Option ℚ
deriving DecidableEq

/-- A call made on an external collaborator (the renderer `graph` or the `seekBar`). -/
inductive Call where
  | graphCreate
  | graphDestroy
  | graphRender (time : ℚ)
  | graphResize
  | graphSetInTime (inTime : Option ℚ)
  | graphSetOutTime (outTime : Option ℚ)
  | graphSetGraphZoom (zoom : ℚ)
  | graphSetDisplayConfig
  | seekBarSetCurrentTime (time : ℚ)
  | seekBarSetTimeRange (min max current : ℚ)
  | seekBarSetInTime (inTime : Option ℚ)
  | seekBarSetOutTime (outTime : Option ℚ)
  | seekBarSetActivityRange
  | seekBarSetActivity
  | seekBarResize
  | seekBarRepaint
  | seekBarRepaintRateLimited
  | updateValuesChartRateLimited
deriving DecidableEq

/-- The closure variables of `BlackboxLogViewer` (main.js 54-106) that the playback core
uses, with the host's queue of animation-frame callbacks and the record of external calls. -/
structure Viewer where
  graphState : Nat
  currentBlackboxTime : ℚ
  lastRenderTime : Option ℤ
  flightLog : Option FlightLog
  graph : Bool
  hasVideo : Bool
  hasLog : Bool
  video : Option Video
  videoOffset : ℚ
  videoExportInTime : Option ℚ
  videoExportOutTime : Option ℚ
  graphRendersCount : Nat
  animationFrameIsQueued : Bool
  playbackRate : ℚ
  graphZoom : ℚ
  pendingFrames : Nat
  calls : List Call
deriving DecidableEq

/-- The state right after the `var` declarations of main.js 54-106, for a page whose
`<video>` element is `video`. -/
def initialViewer (video : Option Video) : Viewer :=
  { graphState := GRAPH_STATE_PAUSED
    currentBlackboxTime := 0
    lastRenderTime := none
    flightLog := none
    graph := false
    hasVideo := false
    hasLog := false
    video := video
    videoOffset := 0
    videoExportInTime := none
    videoExportOutTime := none
    graphRendersCount := 0
    animationFrameIsQueued := false
    playbackRate := PLAYBACK_DEFAULT_RATE
    graphZoom := GRAPH_DEFAULT_ZOOM
    pendingFrames := 0
    calls := [] }

/-- Result of running a function of the viewer: `.ok s` when it returns, `.error s` when
it throws with the state being `s`. -/
abbrev Outcome := Except Viewer Viewer

/-- The state a function leaves behind, whether it returned or threw. -/
def Outcome.state : Outcome → Viewer
  | .ok s => s
  | .error s => s

/-- Run `g` after `f` returned; a throw of `f` propagates. -/
def Outcome.andThen (r : Outcome) (g : Viewer → Outcome) : Outcome :=
  match r with
  | .ok s => g s
  | .error s => .error s

/-! ## Time mapping (main.js 108-128) -/

/-- Source `blackboxTimeFromVideoTime` (main.js 108-110); `none` is the `TypeError` of
reading `video.currentTime` or calling `flightLog.getMinTime()` on `undefined`. -/
def blackboxTimeFromVideoTime (s : Viewer) : Option ℚ :=
  match s.video, s.flightLog with
  | some v, some fl => some ((v.currentTime - s.videoOffset) * 1000000 + fl.minTime)
  | _, _ => none

/-- Source `syncLogToVideo` (main.js 112-116). -/
def syncLogToVideo (s : Viewer) : Outcome :=
  if s.hasLog then
    match blackboxTimeFromVideoTime s with
    | some t => .ok { s with currentBlackboxTime := t }
    | none => .error s
  else .ok s

/-- Source `invalidateGraph` (main.js 236-241). -/
def invalidateGraph (s : Viewer) : Viewer :=
  if !s.animationFrameIsQueued then
    { s with animationFrameIsQueued := true, pendingFrames := s.pendingFrames + 1 }
  else s

/-- Source `setVideoOffset` (main.js 118-128); the write to the `.video-offset` input is
display only. -/
def setVideoOffset (offset : ℚ) (s : Viewer) : Viewer :=
  invalidateGraph { s with videoOffset := offset }

/-! ## Play state, seeking, markers, rate and zoom (main.js 346-432) -/

/-- Source `setGraphState` (main.js 346-367).  `video.play()` and `video.pause()` throw
when there is no `<video>` element. -/
def setGraphState (newState : Nat) (s : Viewer) : Outcome :=
  let s1 := { s with graphState := newState, lastRenderTime := none }
  if newState = GRAPH_STATE_PLAY then
    if s1.hasVideo then
      match s1.video with
      | some v => .ok (invalidateGraph { s1 with video := some { v with paused := false } })
      | none => .error s1
    else .ok (invalidateGraph s1)
  else if newState = GRAPH_STATE_PAUSED then
    if s1.hasVideo then
      match s1.video with
      | some v => .ok (invalidateGraph { s1 with video := some { v with paused := true } })
      | none => .error s1
    else .ok (invalidateGraph s1)
  else .ok (invalidateGraph s1)

/-- Source `setCurrentBlackboxTime` (main.js 369-379). -/
def setCurrentBlackboxTime (newTime : ℚ) (s : Viewer) : Outcome :=
  if s.hasVideo then
    match s.video, s.flightLog with
    | some v, some fl =>
      (syncLogToVideo
        { s with video := some { v with currentTime := (newTime - fl.minTime) / 1000000 + s.videoOffset } }).andThen
        fun s1 => .ok (invalidateGraph s1)
    | _, _ => .error s
  else .ok (invalidateGraph { s with currentBlackboxTime := newTime })

/-- Source `setVideoTime` (main.js 381-385). -/
def setVideoTime (newTime : ℚ) (s : Viewer) : Outcome :=
  match s.video with
  | some v => syncLogToVideo { s with video := some { v with currentTime := newTime } }
  | none => .error s

/-- Source `setVideoInTime` (main.js 387-398); `seekBar` is always constructed. -/
def setVideoInTime (inTime : Option ℚ) (s : Viewer) : Viewer :=
  let s1 := { s with videoExportInTime := inTime, calls := s.calls ++ [Call.seekBarSetInTime inTime] }
  if s1.graph then
    invalidateGraph { s1 with calls := s1.calls ++ [Call.graphSetInTime inTime] }
  else s1

/-- Source `setVideoOutTime` (main.js 400-411). -/
def setVideoOutTime (outTime : Option ℚ) (s : Viewer) : Viewer :=
  let s1 := { s with videoExportOutTime := outTime, calls := s.calls ++ [Call.seekBarSetOutTime outTime] }
  if s1.graph then
    invalidateGraph { s1 with calls := s1.calls ++ [Call.graphSetOutTime outTime] }
  else s1

/-- Source `setPlaybackRate` (main.js 413-421). -/
def setPlaybackRate (rate : ℚ) (s : Viewer) : Viewer :=
  if rate ≥ PLAYBACK_MIN_RATE ∧ rate ≤ PLAYBACK_MAX_RATE then
    let s1 := { s with playbackRate := rate }
    match s1.video with
    | some v => { s1 with video := some { v with playbackRate := rate / 100 } }
    | none => s1
  else s

/-- Source `setGraphZoom` (main.js 423-432). -/
def setGraphZoom (zoom : ℚ) (s : Viewer) : Viewer :=
  if zoom ≥ GRAPH_MIN_ZOOM ∧ zoom ≤ GRAPH_MAX_ZOOM then
    let s1 := { s with graphZoom := zoom }
    if s1.graph then
      invalidateGraph { s1 with calls := s1.calls ++ [Call.graphSetGraphZoom (zoom / 100)] }
    else s1
  else s

/-! ## The field-values table (main.js 144-184) -/

/-- One body row of the `.log-field-values` table, by the indices of the main fields it
shows: `first` is the field of the first three cells, `second` the field of the last three
cells when the row has them.  The text of the cells (friendly name, raw value, decoded
value) comes from external collaborators and is not modelled. -/
structure ValuesRow where
  first : Nat
  second : Option Nat
deriving DecidableEq

/-- Source `updateValuesChart` (main.js 144-182): the body rows of the table after the
call.  `frame` says whether `flightLog.getSmoothedFrameAtTime(currentBlackboxTime)` is
truthy and `fieldCount` is `fieldNames.length`.  The old body rows are removed first, so
without a frame the body is empty. -/
def updateValuesChart (frame : Bool) (fieldCount : Nat) : List ValuesRow :=
  if frame then
    let rowCount := ⌈(fieldCount : ℚ) / 2⌉₊
    (List.range rowCount).map fun i =>
      let secondColumn := i + rowCount
      { first := i
        second := if secondColumn < fieldCount then some secondColumn else none }
  else []

/-- The field indices a row shows, first column first. -/
def ValuesRow.fields (row : ValuesRow) : List Nat :=
  row.first :: row.second.toList

/-- The field indices a table body shows, row by row. -/
def shownFields (rows : List ValuesRow) : List Nat :=
  rows.flatMap ValuesRow.fields

/-! ## The animation tick (main.js 186-241) -/

/-- The integration step of `animationLoop` (main.js 201-205): `0` when `lastRenderTime`
is `false`, otherwise `Math.floor((now - lastRenderTime) * 1000 * playbackRate / 100)`. -/
def playbackDelta (now : ℤ) (lastRenderTime : Option ℤ) (playbackRate : ℚ) : ℤ :=
  match lastRenderTime with
  | none => 0
  | some last => ⌊(((now - last : ℤ) : ℚ)) * 1000 * playbackRate / 100⌋

/-- The time update of `animationLoop` (main.js 195-213), reached when `graph` is set. -/
def updateTime (now : ℤ) (s : Viewer) : Outcome :=
  if s.hasVideo then
    match blackboxTimeFromVideoTime s with
    | some t => .ok { s with currentBlackboxTime := t }
    | none => .error s
  else if s.graphState = GRAPH_STATE_PLAY then
    let delta := playbackDelta now s.lastRenderTime s.playbackRate
    let s1 := { s with currentBlackboxTime := s.currentBlackboxTime + (delta : ℚ) }
    match s1.flightLog with
    | some fl =>
      if s1.currentBlackboxTime > fl.maxTime then
        setGraphState GRAPH_STATE_PAUSED { s1 with currentBlackboxTime := fl.maxTime }
      else .ok s1
    | none => .error s1
  else .ok s

/-- The rest of `animationLoop` (main.js 215-233): render, then either schedule the next
tick (PLAY) or stop (any other state). -/
def renderAndContinue (now : ℤ) (s : Viewer) : Viewer :=
  let s1 := { s with
    graphRendersCount := s.graphRendersCount + 1
    calls := s.calls ++ [Call.graphRender s.currentBlackboxTime,
      Call.seekBarSetCurrentTime s.currentBlackboxTime, Call.updateValuesChartRateLimited] }
  if s1.graphState = GRAPH_STATE_PLAY then
    { s1 with
      lastRenderTime := some now
      calls := s1.calls ++ [Call.seekBarRepaintRateLimited]
      animationFrameIsQueued := true
      pendingFrames := s1.pendingFrames + 1 }
  else
    { s1 with
      calls := s1.calls ++ [Call.seekBarRepaint]
      animationFrameIsQueued := false }

/-- Source `animationLoop` (main.js 186-234), with `now` the value of `Date.now()`. -/
def animationLoop (now : ℤ) (s : Viewer) : Outcome :=
  if !s.graph then .ok { s with animationFrameIsQueued := false }
  else (updateTime now s).andThen fun s1 => .ok (renderAndContinue now s1)

/-- The host runs one pending `requestAnimationFrame(animationLoop)` callback at wall
time `now`; with none pending nothing runs. -/
def runAnimationFrame (now : ℤ) (s : Viewer) : Outcome :=
  if s.pendingFrames = 0 then .ok s
  else animationLoop now { s with pendingFrames := s.pendingFrames - 1 }

/-! ## Loading (main.js 243-254, 318-344, 438-552) -/

/-- Source `updateCanvasSize` (main.js 243-254). -/
def updateCanvasSize (s : Viewer) : Viewer :=
  if s.graph then
    invalidateGraph { s with calls := s.calls ++ [Call.graphResize, Call.seekBarResize] }
  else s

/-- Source `renderSelectedLogInfo` (main.js 318-344): the calls on the seek bar. -/
def renderSelectedLogInfo (s : Viewer) : Outcome :=
  match s.flightLog with
  | some fl =>
    .ok { s with calls := s.calls ++
      [Call.seekBarSetTimeRange fl.minTime fl.maxTime s.currentBlackboxTime,
       Call.seekBarSetActivityRange, Call.seekBarSetActivity, Call.seekBarRepaint] }
  | none => .error s

/-- The replacement of the renderer in `selectLog` (main.js 462-466): destroy the old
graph, if any, and construct a new one. -/
def createGraph (s : Viewer) : Viewer :=
  let s1 := if s.graph then { s with calls := s.calls ++ [Call.graphDestroy] } else s
  { s1 with graph := true, calls := s1.calls ++ [Call.graphCreate] }

/-- Source `selectLog` (main.js 438-498).  `opened` is the outcome of the `try` block:
`none` when it threw (the `catch` returns), `some fl` when it completed, `fl` being the time
range the log object reports from then on.  With `flightLog` undefined the block throws. -/
def selectLog (opened : Option FlightLog) (s : Viewer) : Outcome :=
  match s.flightLog, opened with
  | some _, some fl =>
    let s4 := setVideoOutTime none (setVideoInTime none (createGraph { s with flightLog := some fl }))
    (if s4.hasVideo then syncLogToVideo s4
      else .ok { s4 with currentBlackboxTime := fl.minTime }).andThen fun s5 =>
    (renderSelectedLogInfo s5).andThen fun s6 =>
    (setGraphState GRAPH_STATE_PAUSED (updateCanvasSize s6)).andThen fun s7 =>
    .ok (setGraphZoom s7.graphZoom s7)
  | _, _ => .ok s

/-- The `reader.onload` callback of `loadLogFile` (main.js 503-522).  `parsed` is `none`
when `new FlightLog(...)` throws, otherwise the new log object; `opened` is as in `selectLog`. -/
def loadLogFile (parsed opened : Option FlightLog) (s : Viewer) : Outcome :=
  match parsed with
  | some fl => selectLog opened { s with flightLog := some fl, hasLog := true }
  | none => .ok s

/-- Source `loadVideo` (main.js 527-544), on a host that has `URL.createObjectURL`. -/
def loadVideo (s : Viewer) : Outcome :=
  match s.video with
  | some _ => .ok (setPlaybackRate s.playbackRate s)
  | none => .error s

/-- Source `videoLoaded` (main.js 546-552). -/
def videoLoaded (s : Viewer) : Outcome :=
  setGraphState GRAPH_STATE_PAUSED { s with hasVideo := true }

/-- Source `showVideoExportDialog` (main.js 563-584): the state it leaves. -/
def showVideoExportDialog (s : Viewer) : Outcome :=
  (setGraphState GRAPH_STATE_PAUSED s).andThen fun s1 =>
    if (s1.videoExportInTime = none ∨ s1.videoExportOutTime = none) ∧ s1.flightLog = none then
      .error s1
    else .ok s1

/-! ## Event handlers (main.js 473-483, 722-741, 781-879, 908-936) -/

/-- The `graph.onSeek` callback installed by `selectLog` (main.js 473-483). -/
def graphOnSeek (offset : ℚ) (s : Viewer) : Outcome :=
  let offset2 := offset * 2
  (if s.hasVideo then
    match s.video with
    | some v => setVideoTime (v.currentTime + offset2 / 1000000) s
    | none => .error s
  else setCurrentBlackboxTime (s.currentBlackboxTime + offset2) s).andThen fun s1 =>
    .ok (invalidateGraph s1)

/-- Click on `.log-jump-back` (main.js 781-789). -/
def logJumpBack (s : Viewer) : Outcome :=
  (if s.hasVideo then
    match s.video with
    | some v => setVideoTime (v.currentTime - SMALL_JUMP_TIME / 1000000) s
    | none => .error s
  else setCurrentBlackboxTime (s.currentBlackboxTime - SMALL_JUMP_TIME) s).andThen
    (setGraphState GRAPH_STATE_PAUSED)

/-- Click on `.log-jump-forward` (main.js 791-799). -/
def logJumpForward (s : Viewer) : Outcome :=
  (if s.hasVideo then
    match s.video with
    | some v => setVideoTime (v.currentTime + SMALL_JUMP_TIME / 1000000) s
    | none => .error s
  else setCurrentBlackboxTime (s.currentBlackboxTime + SMALL_JUMP_TIME) s).andThen
    (setGraphState GRAPH_STATE_PAUSED)

/-- Click on `.log-jump-start` (main.js 801-804). -/
def logJumpStart (s : Viewer) : Outcome :=
  match s.flightLog with
  | some fl => (setCurrentBlackboxTime fl.minTime s).andThen (setGraphState GRAPH_STATE_PAUSED)
  | none => .error s

/-- Click on `.log-jump-end` (main.js 806-809). -/
def logJumpEnd (s : Viewer) : Outcome :=
  match s.flightLog with
  | some fl => (setCurrentBlackboxTime fl.maxTime s).andThen (setGraphState GRAPH_STATE_PAUSED)
  | none => .error s

/-- Click on `.video-jump-start` (main.js 811-814). -/
def videoJumpStart (s : Viewer) : Outcome :=
  (setVideoTime 0 s).andThen (setGraphState GRAPH_STATE_PAUSED)

/-- Click on `.video-jump-end` (main.js 816-821); `video.duration` is falsy when it is
`NaN` or `0`. -/
def videoJumpEnd (s : Viewer) : Outcome :=
  match s.video with
  | some v =>
    match v.duration with
    | some d =>
      if d ≠ 0 then (setVideoTime d s).andThen (setGraphState GRAPH_STATE_PAUSED) else .ok s
    | none => .ok s
  | none => .error s

/-- Click on `.log-play-pause` (main.js 823-829). -/
def logPlayPause (s : Viewer) : Outcome :=
  if s.graphState = GRAPH_STATE_PAUSED then setGraphState GRAPH_STATE_PLAY s
  else setGraphState GRAPH_STATE_PAUSED s

/-- Click on `.log-sync-here` (main.js 831-833). -/
def logSyncHere (s : Viewer) : Outcome :=
  match s.video with
  | some v => .ok (setVideoOffset v.currentTime s)
  | none => .error s

/-- Click on `.log-sync-back` (main.js 835-837). -/
def logSyncBack (s : Viewer) : Viewer :=
  setVideoOffset (s.videoOffset - 1 / 15) s

/-- Click on `.log-sync-forward` (main.js 839-841). -/
def logSyncForward (s : Viewer) : Viewer :=
  setVideoOffset (s.videoOffset + 1 / 15) s

/-- Change of the `.video-offset` input (main.js 843-850); `offset` is the result of
`parseFloat`, `none` for `NaN`. -/
def videoOffsetChange (offset : Option ℚ) (s : Viewer) : Viewer :=
  match offset with
  | some o => invalidateGraph { s with videoOffset := o }
  | none => s

/-- The `keydown` handler (main.js 856-879).  `which` is `e.which`; the handler reads
`e.altkey`, which no event has, so of the modifiers only shift, ctrl and meta count;
`inModal` says whether the target is inside a `.modal`. -/
def keydown (which : Nat) (shiftKey ctrlKey metaKey inModal : Bool) (s : Viewer) : Viewer :=
  if s.graph && !(shiftKey || ctrlKey || metaKey) && !inModal then
    if which = 73 then
      if s.videoExportInTime = some s.currentBlackboxTime then setVideoInTime none s
      else setVideoInTime (some s.currentBlackboxTime) s
    else if which = 79 then
      if s.videoExportOutTime = some s.currentBlackboxTime then setVideoOutTime none s
      else setVideoOutTime (some s.currentBlackboxTime) s
    else s
  else s

/-- The `activePresetChange` handler of `graphPresets` (main.js 723-726). -/
def graphPresetChange (s : Viewer) : Viewer :=
  invalidateGraph s

/-- The `activePresetChange` handler of `layoutPresets` (main.js 728-731);
`graph.setDisplayConfig` throws while `graph` is `null`. -/
def layoutPresetChange (s : Viewer) : Outcome :=
  if s.graph then
    .ok (invalidateGraph { s with calls := s.calls ++ [Call.graphSetDisplayConfig] })
  else .error s

/-! ## The viewer as a transition system -/

/-- Everything that can happen to a viewer: the host running a pending animation-frame
callback, the events the source registers handlers for, the video element changing on its
own, and a direct call of one of the exposed functions with any argument. -/
inductive Op where
  | animationFrame (now : ℤ)
  | loadLogFile (parsed opened : Option FlightLog)
  | selectLog (opened : Option FlightLog)
  | loadVideo
  | videoLoaded
  | videoElement (v : Video)
  | updateCanvasSize
  | graphOnSeek (offset : ℚ)
  | logJumpBack
  | logJumpForward
  | logJumpStart
  | logJumpEnd
  | videoJumpStart
  | videoJumpEnd
  | logPlayPause
  | logSyncHere
  | logSyncBack
  | logSyncForward
  | videoOffsetChange (offset : Option ℚ)
  | keydown (which : Nat) (shiftKey ctrlKey metaKey inModal : Bool)
  | graphPresetChange
  | layoutPresetChange
  | showVideoExportDialog
  | invalidateGraph
  | setGraphState (newState : Nat)
  | setCurrentBlackboxTime (newTime : ℚ)
  | setVideoOffset (offset : ℚ)
  | setVideoInTime (inTime : Option ℚ)
  | setVideoOutTime (outTime : Option ℚ)
  | setPlaybackRate (rate : ℚ)
  | setGraphZoom (zoom : ℚ)

/-- Run one operation.  `selectLog` from the log picker and `graph.onSeek` exist only once
a log was loaded, resp. a graph was created; the events of the video element
(`loadeddata`, its own progress) exist only when the page has the element. -/
def runOp : Op → Viewer → Outcome
  | .animationFrame now, s => runAnimationFrame now s
  | .loadLogFile parsed opened, s => loadLogFile parsed opened s
  | .selectLog opened, s => if s.hasLog then selectLog opened s else .ok s
  | .loadVideo, s => loadVideo s
  | .videoLoaded, s => if s.video.isSome then videoLoaded s else .ok s
  | .videoElement v, s => if s.video.isSome then .ok { s with video := some v } else .ok s
  | .updateCanvasSize, s => .ok (updateCanvasSize s)
  | .graphOnSeek offset, s => if s.graph then graphOnSeek offset s else .ok s
  | .logJumpBack, s => logJumpBack s
  | .logJumpForward, s => logJumpForward s
  | .logJumpStart, s => logJumpStart s
  | .logJumpEnd, s => logJumpEnd s
  | .videoJumpStart, s => videoJumpStart s
  | .videoJumpEnd, s => videoJumpEnd s
  | .logPlayPause, s => logPlayPause s
  | .logSyncHere, s => logSyncHere s
  | .logSyncBack, s => .ok (logSyncBack s)
  | .logSyncForward, s => .ok (logSyncForward s)
  | .videoOffsetChange offset, s => .ok (videoOffsetChange offset s)
  | .keydown which shiftKey ctrlKey metaKey inModal, s =>
    .ok (keydown which shiftKey ctrlKey metaKey inModal s)
  | .graphPresetChange, s => .ok (graphPresetChange s)
  | .layoutPresetChange, s => layoutPresetChange s
  | .showVideoExportDialog, s => showVideoExportDialog s
  | .invalidateGraph, s => .ok (invalidateGraph s)
  | .setGraphState newState, s => setGraphState newState s
  | .setCurrentBlackboxTime newTime, s => setCurrentBlackboxTime newTime s
  | .setVideoOffset offset, s => .ok (setVideoOffset offset s)
  | .setVideoInTime inTime, s => .ok (setVideoInTime inTime s)
  | .setVideoOutTime outTime, s => .ok (setVideoOutTime outTime s)
  | .setPlaybackRate rate, s => .ok (setPlaybackRate rate s)
  | .setGraphZoom zoom, s => .ok (setGraphZoom zoom s)

/-- The state after one operation, whether its handler returned or threw. -/
def step (s : Viewer) (op : Op) : Viewer :=
  (runOp op s).state

/-- The state after a sequence of operations. -/
def runOps (ops : List Op) (s : Viewer) : Viewer :=
  ops.foldl step s

/-! ## Invariants of the reachable states -/

/-- The objects a state refers to exist: a graph is only created for a parsed log,
`hasVideo` is only set by an event of the `<video>` element, and `lastRenderTime` is only
recorded by a tick that rendered. -/
def WellFormed (s : Viewer) : Prop :=
  (s.graph = true → s.flightLog.isSome = true) ∧
  (s.hasVideo = true → s.video.isSome = true) ∧
  (s.lastRenderTime.isSome = true → s.graph = true)

/-- At most one callback is outstanding and the flag says whether one is. -/
def Scheduled (s : Viewer) : Prop :=
  s.pendingFrames ≤ 1 ∧ (s.animationFrameIsQueued = true ↔ s.pendingFrames = 1)

/-- The rate and the zoom are within their configured bounds. -/
def InRange (s : Viewer) : Prop :=
  (PLAYBACK_MIN_RATE ≤ s.playbackRate ∧ s.playbackRate ≤ PLAYBACK_MAX_RATE) ∧
  (GRAPH_MIN_ZOOM ≤ s.graphZoom ∧ s.graphZoom ≤ GRAPH_MAX_ZOOM)

/-- The invariant of the viewer between two operations. -/
def Inv (s : Viewer) : Prop :=
  WellFormed s ∧ Scheduled s ∧ InRange s


/-! ## Example states -/

/-- A video element showing second 3.5 of a one-minute clip. -/
def demoVideo : Video :=
  { currentTime := 7 / 2, playbackRate := 1, paused := true, duration := some 60 }

/-- A log that runs from 2 s to 12 s. -/
def demoLog : FlightLog :=
  { minTime := 2000000, maxTime := 12000000 }

/-- A viewer with `demoLog` and `demoVideo` attached, the video offset being 1.5 s. -/
def demoViewerWithVideo : Viewer :=
  { initialViewer (some demoVideo) with
    flightLog := some demoLog
    hasLog := true
    graph := true
    hasVideo := true
    videoOffset := 3 / 2 }

/-- A log that runs from 0 s to 10 s. -/
def tenSecondLog : FlightLog :=
  { minTime := 0, maxTime := 10000000 }

/-- Load `tenSecondLog` on a page without a `<video>` element and let the pending tick
run: the viewer is then paused at time 0 with nothing scheduled. -/
def pausedOps : List Op :=
  [.loadLogFile (some tenSecondLog) (some tenSecondLog), .animationFrame 0]

/-- As `pausedOps`, then press play and let the first tick run at wall time 1000 ms. -/
def playingOps : List Op :=
  pausedOps ++ [.logPlayPause, .animationFrame 1000]

/-- A viewer without video, playing `tenSecondLog` at rate 100, at time 0, whose last
tick ran at wall time 1000 ms. -/
def playingViewer : Viewer :=
  { initialViewer none with
    graphState := GRAPH_STATE_PLAY
    lastRenderTime := some 1000
    flightLog := some tenSecondLog
    hasLog := true
    graph := true
    animationFrameIsQueued := true
    pendingFrames := 1 }

/-- A viewer without video, paused at time 0 of `tenSecondLog`, with nothing scheduled. -/
def pausedViewer : Viewer :=
  { initialViewer none with
    flightLog := some tenSecondLog
    hasLog := true
    graph := true }

/-- As `playingViewer`, half a second of log time before the end of the log. -/
def nearEndViewer : Viewer :=
  { playingViewer with currentBlackboxTime := 9500000 }

/-- A `<video>` element that has no media: `duration` is `NaN`. -/
def emptyVideo : Video :=
  { currentTime := 0, playbackRate := 1, paused := true, duration := none }

/-- On a page with a `<video>` element but no video file: load `tenSecondLog`, seek to
5 s, press play and let the first tick run. -/
def noVideoPlayingOps : List Op :=
  [.loadLogFile (some tenSecondLog) (some tenSecondLog), .animationFrame 0,
    .setCurrentBlackboxTime 5000000, .logPlayPause, .animationFrame 1000]

/-- As `pausedOps`, then jump to the end of the log, jump 100 ms forward and press play:
the viewer is playing at 10100000, past the end of `tenSecondLog`, and no tick has run
since `setGraphState`. -/
def pastEndOps : List Op :=
  pausedOps ++ [.logJumpEnd, .logJumpForward, .logPlayPause]

/-- As `playingViewer`, right after `setGraphState`: `lastRenderTime` is `false`. -/
def justStartedViewer : Viewer :=
  { playingViewer with lastRenderTime := none }

/-! ## What `invalidateGraph` leaves alone -/

@[simp] theorem invalidateGraph_graphState (s : Viewer) :
    (invalidateGraph s).graphState = s.graphState := by
  unfold invalidateGraph
  split <;> rfl

@[simp] theorem invalidateGraph_currentBlackboxTime (s : Viewer) :
    (invalidateGraph s).currentBlackboxTime = s.currentBlackboxTime := by
  unfold invalidateGraph
  split <;> rfl

@[simp] theorem invalidateGraph_lastRenderTime (s : Viewer) :
    (invalidateGraph s).lastRenderTime = s.lastRenderTime := by
  unfold invalidateGraph
  split <;> rfl

@[simp] theorem invalidateGraph_flightLog (s : Viewer) :
    (invalidateGraph s).flightLog = s.flightLog := by
  unfold invalidateGraph
  split <;> rfl

@[simp] theorem invalidateGraph_graph (s : Viewer) :
    (invalidateGraph s).graph = s.graph := by
  unfold invalidateGraph
  split <;> rfl

@[simp] theorem invalidateGraph_hasVideo (s : Viewer) :
    (invalidateGraph s).hasVideo = s.hasVideo := by
  unfold invalidateGraph
  split <;> rfl

@[simp] theorem invalidateGraph_hasLog (s : Viewer) :
    (invalidateGraph s).hasLog = s.hasLog := by
  unfold invalidateGraph
  split <;> rfl

@[simp] theorem invalidateGraph_video (s : Viewer) :
    (invalidateGraph s).video = s.video := by
  unfold invalidateGraph
  split <;> rfl

@[simp] theorem invalidateGraph_videoOffset (s : Viewer) :
    (invalidateGraph s).videoOffset = s.videoOffset := by
  unfold invalidateGraph
  split <;> rfl

@[simp] theorem invalidateGraph_videoExportInTime (s : Viewer) :
    (invalidateGraph s).videoExportInTime = s.videoExportInTime := by
  unfold invalidateGraph
  split <;> rfl

@[simp] theorem invalidateGraph_videoExportOutTime (s : Viewer) :
    (invalidateGraph s).videoExportOutTime = s.videoExportOutTime := by
  unfold invalidateGraph
  split <;> rfl

@[simp] theorem invalidateGraph_graphRendersCount (s : Viewer) :
    (invalidateGraph s).graphRendersCount = s.graphRendersCount := by
  unfold invalidateGraph
  split <;> rfl

@[simp] theorem invalidateGraph_playbackRate (s : Viewer) :
    (invalidateGraph s).playbackRate = s.playbackRate := by
  unfold invalidateGraph
  split <;> rfl

@[simp] theorem invalidateGraph_graphZoom (s : Viewer) :
    (invalidateGraph s).graphZoom = s.graphZoom := by
  unfold invalidateGraph
  split <;> rfl

@[simp] theorem invalidateGraph_calls (s : Viewer) :
    (invalidateGraph s).calls = s.calls := by
  unfold invalidateGraph
  split <;> rfl


/-! ## What the second half of a tick leaves alone -/

@[simp] theorem renderAndContinue_graphState (now : ℤ) (s : Viewer) :
    (renderAndContinue now s).graphState = s.graphState := by
  unfold renderAndContinue
  simp only []
  split <;> rfl

@[simp] theorem renderAndContinue_currentBlackboxTime (now : ℤ) (s : Viewer) :
    (renderAndContinue now s).currentBlackboxTime = s.currentBlackboxTime := by
  unfold renderAndContinue
  simp only []
  split <;> rfl

@[simp] theorem renderAndContinue_flightLog (now : ℤ) (s : Viewer) :
    (renderAndContinue now s).flightLog = s.flightLog := by
  unfold renderAndContinue
  simp only []
  split <;> rfl

@[simp] theorem renderAndContinue_graph (now : ℤ) (s : Viewer) :
    (renderAndContinue now s).graph = s.graph := by
  unfold renderAndContinue
  simp only []
  split <;> rfl

@[simp] theorem renderAndContinue_hasVideo (now : ℤ) (s : Viewer) :
    (renderAndContinue now s).hasVideo = s.hasVideo := by
  unfold renderAndContinue
  simp only []
  split <;> rfl

@[simp] theorem renderAndContinue_hasLog (now : ℤ) (s : Viewer) :
    (renderAndContinue now s).hasLog = s.hasLog := by
  unfold renderAndContinue
  simp only []
  split <;> rfl

@[simp] theorem renderAndContinue_video (now : ℤ) (s : Viewer) :
    (renderAndContinue now s).video = s.video := by
  unfold renderAndContinue
  simp only []
  split <;> rfl

@[simp] theorem renderAndContinue_videoOffset (now : ℤ) (s : Viewer) :
    (renderAndContinue now s).videoOffset = s.videoOffset := by
  unfold renderAndContinue
  simp only []
  split <;> rfl

@[simp] theorem renderAndContinue_videoExportInTime (now : ℤ) (s : Viewer) :
    (renderAndContinue now s).videoExportInTime = s.videoExportInTime := by
  unfold renderAndContinue
  simp only []
  split <;> rfl

@[simp] theorem renderAndContinue_videoExportOutTime (now : ℤ) (s : Viewer) :
    (renderAndContinue now s).videoExportOutTime = s.videoExportOutTime := by
  unfold renderAndContinue
  simp only []
  split <;> rfl

@[simp] theorem renderAndContinue_playbackRate (now : ℤ) (s : Viewer) :
    (renderAndContinue now s).playbackRate = s.playbackRate := by
  unfold renderAndContinue
  simp only []
  split <;> rfl

@[simp] theorem renderAndContinue_graphZoom (now : ℤ) (s : Viewer) :
    (renderAndContinue now s).graphZoom = s.graphZoom := by
  unfold renderAndContinue
  simp only []
  split <;> rfl

/-! ## The no-video integration step -/

/-- A PLAY tick without video on a viewer with a graph and a log: when the integrated time
does not pass `maxTime` it is kept and the tick goes on to render. -/
theorem animationLoop_integrate (now : ℤ) (s : Viewer) (fl : FlightLog)
    (hg : s.graph = true) (hv : s.hasVideo = false) (hp : s.graphState = GRAPH_STATE_PLAY)
    (hfl : s.flightLog = some fl)
    (hle : s.currentBlackboxTime + (playbackDelta now s.lastRenderTime s.playbackRate : ℚ)
      ≤ fl.maxTime) :
    animationLoop now s = .ok (renderAndContinue now { s with
      currentBlackboxTime :=
        s.currentBlackboxTime + (playbackDelta now s.lastRenderTime s.playbackRate : ℚ) }) := by
  unfold animationLoop updateTime
  simp [hg, hv, hp, hfl, not_lt.mpr hle, Outcome.andThen]

/-- A PLAY tick without video whose integrated time passes `maxTime`: the time becomes
`maxTime` and `setGraphState(GRAPH_STATE_PAUSED)` runs before the rendering. -/
theorem animationLoop_clamp (now : ℤ) (s : Viewer) (fl : FlightLog)
    (hg : s.graph = true) (hv : s.hasVideo = false) (hp : s.graphState = GRAPH_STATE_PLAY)
    (hfl : s.flightLog = some fl)
    (hgt : fl.maxTime <
      s.currentBlackboxTime + (playbackDelta now s.lastRenderTime s.playbackRate : ℚ)) :
    animationLoop now s = .ok (renderAndContinue now (invalidateGraph { s with
      currentBlackboxTime := fl.maxTime
      graphState := GRAPH_STATE_PAUSED
      lastRenderTime := none })) := by
  unfold animationLoop updateTime
  simp [hg, hv, hp, hfl, hgt, Outcome.andThen, setGraphState, GRAPH_STATE_PAUSED,
    GRAPH_STATE_PLAY]

/-- A tick without video in a state other than PLAY only renders. -/
theorem animationLoop_idle (now : ℤ) (s : Viewer)
    (hg : s.graph = true) (hv : s.hasVideo = false) (hp : s.graphState ≠ GRAPH_STATE_PLAY) :
    animationLoop now s = .ok (renderAndContinue now s) := by
  unfold animationLoop updateTime
  simp [hg, hv, hp, Outcome.andThen]

/-- At rate 100 the integration step is the elapsed wall time in microseconds. -/
theorem playbackDelta_rate100 (now last : ℤ) :
    playbackDelta now (some last) 100 = (now - last) * 1000 := by
  unfold playbackDelta
  have h : (((now - last : ℤ) : ℚ)) * 1000 * 100 / 100 = (((now - last) * 1000 : ℤ) : ℚ) := by
    push_cast
    ring
  simp only [h, Int.floor_intCast]

/-! ## The example runs -/

/-- The state `playingOps` leads to, as far as a tick reads it. -/
theorem playingOps_state :
    (runOps playingOps (initialViewer none)).hasVideo = false ∧
    (runOps playingOps (initialViewer none)).graphState = GRAPH_STATE_PLAY ∧
    (runOps playingOps (initialViewer none)).playbackRate = 100 ∧
    (runOps playingOps (initialViewer none)).lastRenderTime = some 1000 ∧
    (runOps playingOps (initialViewer none)).flightLog = some tenSecondLog ∧
    (runOps playingOps (initialViewer none)).currentBlackboxTime = 0 := by
  norm_num [playingOps, pausedOps, tenSecondLog, runOps, step, runOp, initialViewer,
    loadLogFile, selectLog, createGraph, setVideoInTime, setVideoOutTime, invalidateGraph,
    renderSelectedLogInfo, updateCanvasSize, setGraphState, setGraphZoom, Outcome.andThen,
    Outcome.state, runAnimationFrame, animationLoop, updateTime, renderAndContinue,
    logPlayPause, playbackDelta, GRAPH_STATE_PAUSED, GRAPH_STATE_PLAY, GRAPH_DEFAULT_ZOOM,
    GRAPH_MIN_ZOOM, GRAPH_MAX_ZOOM, PLAYBACK_DEFAULT_RATE]

/-! ## The continuation of a tick -/

/-- In state PLAY the tick records `now` and schedules the next tick. -/
theorem renderAndContinue_play (now : ℤ) (s : Viewer) (hp : s.graphState = GRAPH_STATE_PLAY) :
    (renderAndContinue now s).lastRenderTime = some now ∧
    (renderAndContinue now s).animationFrameIsQueued = true ∧
    (renderAndContinue now s).pendingFrames = s.pendingFrames + 1 := by
  unfold renderAndContinue
  simp [hp]

/-- In any other state the tick schedules nothing and clears the flag. -/
theorem renderAndContinue_stop (now : ℤ) (s : Viewer) (hp : s.graphState ≠ GRAPH_STATE_PLAY) :
    (renderAndContinue now s).lastRenderTime = s.lastRenderTime ∧
    (renderAndContinue now s).animationFrameIsQueued = false ∧
    (renderAndContinue now s).pendingFrames = s.pendingFrames := by
  unfold renderAndContinue
  simp [hp]

/-- Without video `setGraphState` cannot throw. -/
theorem setGraphState_no_video (n : Nat) (s : Viewer) (hv : s.hasVideo = false) :
    setGraphState n s =
      .ok (invalidateGraph { s with graphState := n, lastRenderTime := none }) := by
  simp [setGraphState, hv]

/-- What a PLAY tick without video that stays within the log leaves behind. -/
theorem animationLoop_integrate_facts (now : ℤ) (s : Viewer) (fl : FlightLog)
    (hg : s.graph = true) (hv : s.hasVideo = false) (hp : s.graphState = GRAPH_STATE_PLAY)
    (hfl : s.flightLog = some fl)
    (hle : s.currentBlackboxTime + (playbackDelta now s.lastRenderTime s.playbackRate : ℚ)
      ≤ fl.maxTime) :
    ∃ s1, animationLoop now s = .ok s1 ∧
      s1.currentBlackboxTime =
        s.currentBlackboxTime + (playbackDelta now s.lastRenderTime s.playbackRate : ℚ) ∧
      s1.graphState = GRAPH_STATE_PLAY ∧ s1.lastRenderTime = some now ∧
      s1.graph = true ∧ s1.hasVideo = false ∧ s1.flightLog = some fl ∧
      s1.playbackRate = s.playbackRate ∧ s1.animationFrameIsQueued = true ∧
      s1.pendingFrames = s.pendingFrames + 1 := by
  refine ⟨_, animationLoop_integrate now s fl hg hv hp hfl hle, ?_⟩
  have h := renderAndContinue_play now { s with currentBlackboxTime :=
    s.currentBlackboxTime + (playbackDelta now s.lastRenderTime s.playbackRate : ℚ) } hp
  exact ⟨by simp, by simp [hp], h.1, by simp [hg], by simp [hv], by simp [hfl], by simp,
    h.2.1, h.2.2⟩

/-! ## What `setPlaybackRate` leaves alone -/

@[simp] theorem setPlaybackRate_graphState (rate : ℚ) (s : Viewer) :
    (setPlaybackRate rate s).graphState = s.graphState := by
  unfold setPlaybackRate
  split
  · simp only []
    split <;> rfl
  · rfl

@[simp] theorem setPlaybackRate_currentBlackboxTime (rate : ℚ) (s : Viewer) :
    (setPlaybackRate rate s).currentBlackboxTime = s.currentBlackboxTime := by
  unfold setPlaybackRate
  split
  · simp only []
    split <;> rfl
  · rfl

@[simp] theorem setPlaybackRate_lastRenderTime (rate : ℚ) (s : Viewer) :
    (setPlaybackRate rate s).lastRenderTime = s.lastRenderTime := by
  unfold setPlaybackRate
  split
  · simp only []
    split <;> rfl
  · rfl

@[simp] theorem setPlaybackRate_flightLog (rate : ℚ) (s : Viewer) :
    (setPlaybackRate rate s).flightLog = s.flightLog := by
  unfold setPlaybackRate
  split
  · simp only []
    split <;> rfl
  · rfl

@[simp] theorem setPlaybackRate_graph (rate : ℚ) (s : Viewer) :
    (setPlaybackRate rate s).graph = s.graph := by
  unfold setPlaybackRate
  split
  · simp only []
    split <;> rfl
  · rfl

@[simp] theorem setPlaybackRate_hasVideo (rate : ℚ) (s : Viewer) :
    (setPlaybackRate rate s).hasVideo = s.hasVideo := by
  unfold setPlaybackRate
  split
  · simp only []
    split <;> rfl
  · rfl

@[simp] theorem setPlaybackRate_hasLog (rate : ℚ) (s : Viewer) :
    (setPlaybackRate rate s).hasLog = s.hasLog := by
  unfold setPlaybackRate
  split
  · simp only []
    split <;> rfl
  · rfl

@[simp] theorem setPlaybackRate_videoOffset (rate : ℚ) (s : Viewer) :
    (setPlaybackRate rate s).videoOffset = s.videoOffset := by
  unfold setPlaybackRate
  split
  · simp only []
    split <;> rfl
  · rfl

@[simp] theorem setPlaybackRate_videoExportInTime (rate : ℚ) (s : Viewer) :
    (setPlaybackRate rate s).videoExportInTime = s.videoExportInTime := by
  unfold setPlaybackRate
  split
  · simp only []
    split <;> rfl
  · rfl

@[simp] theorem setPlaybackRate_videoExportOutTime (rate : ℚ) (s : Viewer) :
    (setPlaybackRate rate s).videoExportOutTime = s.videoExportOutTime := by
  unfold setPlaybackRate
  split
  · simp only []
    split <;> rfl
  · rfl

@[simp] theorem setPlaybackRate_graphRendersCount (rate : ℚ) (s : Viewer) :
    (setPlaybackRate rate s).graphRendersCount = s.graphRendersCount := by
  unfold setPlaybackRate
  split
  · simp only []
    split <;> rfl
  · rfl

@[simp] theorem setPlaybackRate_animationFrameIsQueued (rate : ℚ) (s : Viewer) :
    (setPlaybackRate rate s).animationFrameIsQueued = s.animationFrameIsQueued := by
  unfold setPlaybackRate
  split
  · simp only []
    split <;> rfl
  · rfl

@[simp] theorem setPlaybackRate_graphZoom (rate : ℚ) (s : Viewer) :
    (setPlaybackRate rate s).graphZoom = s.graphZoom := by
  unfold setPlaybackRate
  split
  · simp only []
    split <;> rfl
  · rfl

@[simp] theorem setPlaybackRate_pendingFrames (rate : ℚ) (s : Viewer) :
    (setPlaybackRate rate s).pendingFrames = s.pendingFrames := by
  unfold setPlaybackRate
  split
  · simp only []
    split <;> rfl
  · rfl

@[simp] theorem setPlaybackRate_calls (rate : ℚ) (s : Viewer) :
    (setPlaybackRate rate s).calls = s.calls := by
  unfold setPlaybackRate
  split
  · simp only []
    split <;> rfl
  · rfl

/-- A rate within the bounds is stored and passed on, divided by 100, to the video. -/
theorem setPlaybackRate_in_range (rate : ℚ) (s : Viewer)
    (h : PLAYBACK_MIN_RATE ≤ rate ∧ rate ≤ PLAYBACK_MAX_RATE) :
    (setPlaybackRate rate s).playbackRate = rate ∧
    (setPlaybackRate rate s).video =
      s.video.map fun v => { v with playbackRate := rate / 100 } := by
  unfold setPlaybackRate
  rw [if_pos (by exact h)]
  cases hvid : s.video <;> simp [hvid]

/-- A rate outside the bounds changes nothing. -/
theorem setPlaybackRate_out_of_range (rate : ℚ) (s : Viewer)
    (h : ¬(PLAYBACK_MIN_RATE ≤ rate ∧ rate ≤ PLAYBACK_MAX_RATE)) :
    setPlaybackRate rate s = s := by
  unfold setPlaybackRate
  rw [if_neg (by exact h)]

/-! ## What the marker setters leave alone -/

@[simp] theorem setVideoInTime_videoExportInTime (inTime : Option ℚ) (s : Viewer) :
    (setVideoInTime inTime s).videoExportInTime = inTime := by
  unfold setVideoInTime
  simp only []
  split
  · simp
  · rfl

@[simp] theorem setVideoInTime_graphState (inTime : Option ℚ) (s : Viewer) :
    (setVideoInTime inTime s).graphState = s.graphState := by
  unfold setVideoInTime
  simp only []
  split
  · simp
  · rfl

@[simp] theorem setVideoInTime_currentBlackboxTime (inTime : Option ℚ) (s : Viewer) :
    (setVideoInTime inTime s).currentBlackboxTime = s.currentBlackboxTime := by
  unfold setVideoInTime
  simp only []
  split
  · simp
  · rfl

@[simp] theorem setVideoInTime_lastRenderTime (inTime : Option ℚ) (s : Viewer) :
    (setVideoInTime inTime s).lastRenderTime = s.lastRenderTime := by
  unfold setVideoInTime
  simp only []
  split
  · simp
  · rfl

@[simp] theorem setVideoInTime_flightLog (inTime : Option ℚ) (s : Viewer) :
    (setVideoInTime inTime s).flightLog = s.flightLog := by
  unfold setVideoInTime
  simp only []
  split
  · simp
  · rfl

@[simp] theorem setVideoInTime_graph (inTime : Option ℚ) (s : Viewer) :
    (setVideoInTime inTime s).graph = s.graph := by
  unfold setVideoInTime
  simp only []
  split
  · simp
  · rfl

@[simp] theorem setVideoInTime_hasVideo (inTime : Option ℚ) (s : Viewer) :
    (setVideoInTime inTime s).hasVideo = s.hasVideo := by
  unfold setVideoInTime
  simp only []
  split
  · simp
  · rfl

@[simp] theorem setVideoInTime_hasLog (inTime : Option ℚ) (s : Viewer) :
    (setVideoInTime inTime s).hasLog = s.hasLog := by
  unfold setVideoInTime
  simp only []
  split
  · simp
  · rfl

@[simp] theorem setVideoInTime_video (inTime : Option ℚ) (s : Viewer) :
    (setVideoInTime inTime s).video = s.video := by
  unfold setVideoInTime
  simp only []
  split
  · simp
  · rfl

@[simp] theorem setVideoInTime_videoOffset (inTime : Option ℚ) (s : Viewer) :
    (setVideoInTime inTime s).videoOffset = s.videoOffset := by
  unfold setVideoInTime
  simp only []
  split
  · simp
  · rfl

@[simp] theorem setVideoInTime_videoExportOutTime (inTime : Option ℚ) (s : Viewer) :
    (setVideoInTime inTime s).videoExportOutTime = s.videoExportOutTime := by
  unfold setVideoInTime
  simp only []
  split
  · simp
  · rfl

@[simp] theorem setVideoInTime_graphRendersCount (inTime : Option ℚ) (s : Viewer) :
    (setVideoInTime inTime s).graphRendersCount = s.graphRendersCount := by
  unfold setVideoInTime
  simp only []
  split
  · simp
  · rfl

@[simp] theorem setVideoInTime_playbackRate (inTime : Option ℚ) (s : Viewer) :
    (setVideoInTime inTime s).playbackRate = s.playbackRate := by
  unfold setVideoInTime
  simp only []
  split
  · simp
  · rfl

@[simp] theorem setVideoInTime_graphZoom (inTime : Option ℚ) (s : Viewer) :
    (setVideoInTime inTime s).graphZoom = s.graphZoom := by
  unfold setVideoInTime
  simp only []
  split
  · simp
  · rfl

@[simp] theorem setVideoOutTime_videoExportOutTime (outTime : Option ℚ) (s : Viewer) :
    (setVideoOutTime outTime s).videoExportOutTime = outTime := by
  unfold setVideoOutTime
  simp only []
  split
  · simp
  · rfl

@[simp] theorem setVideoOutTime_graphState (outTime : Option ℚ) (s : Viewer) :
    (setVideoOutTime outTime s).graphState = s.graphState := by
  unfold setVideoOutTime
  simp only []
  split
  · simp
  · rfl

@[simp] theorem setVideoOutTime_currentBlackboxTime (outTime : Option ℚ) (s : Viewer) :
    (setVideoOutTime outTime s).currentBlackboxTime = s.currentBlackboxTime := by
  unfold setVideoOutTime
  simp only []
  split
  · simp
  · rfl

@[simp] theorem setVideoOutTime_lastRenderTime (outTime : Option ℚ) (s : Viewer) :
    (setVideoOutTime outTime s).lastRenderTime = s.lastRenderTime := by
  unfold setVideoOutTime
  simp only []
  split
  · simp
  · rfl

@[simp] theorem setVideoOutTime_flightLog (outTime : Option ℚ) (s : Viewer) :
    (setVideoOutTime outTime s).flightLog = s.flightLog := by
  unfold setVideoOutTime
  simp only []
  split
  · simp
  · rfl

@[simp] theorem setVideoOutTime_graph (outTime : Option ℚ) (s : Viewer) :
    (setVideoOutTime outTime s).graph = s.graph := by
  unfold setVideoOutTime
  simp only []
  split
  · simp
  · rfl

@[simp] theorem setVideoOutTime_hasVideo (outTime : Option ℚ) (s : Viewer) :
    (setVideoOutTime outTime s).hasVideo = s.hasVideo := by
  unfold setVideoOutTime
  simp only []
  split
  · simp
  · rfl

@[simp] theorem setVideoOutTime_hasLog (outTime : Option ℚ) (s : Viewer) :
    (setVideoOutTime outTime s).hasLog = s.hasLog := by
  unfold setVideoOutTime
  simp only []
  split
  · simp
  · rfl

@[simp] theorem setVideoOutTime_video (outTime : Option ℚ) (s : Viewer) :
    (setVideoOutTime outTime s).video = s.video := by
  unfold setVideoOutTime
  simp only []
  split
  · simp
  · rfl

@[simp] theorem setVideoOutTime_videoOffset (outTime : Option ℚ) (s : Viewer) :
    (setVideoOutTime outTime s).videoOffset = s.videoOffset := by
  unfold setVideoOutTime
  simp only []
  split
  · simp
  · rfl

@[simp] theorem setVideoOutTime_videoExportInTime (outTime : Option ℚ) (s : Viewer) :
    (setVideoOutTime outTime s).videoExportInTime = s.videoExportInTime := by
  unfold setVideoOutTime
  simp only []
  split
  · simp
  · rfl

@[simp] theorem setVideoOutTime_graphRendersCount (outTime : Option ℚ) (s : Viewer) :
    (setVideoOutTime outTime s).graphRendersCount = s.graphRendersCount := by
  unfold setVideoOutTime
  simp only []
  split
  · simp
  · rfl

@[simp] theorem setVideoOutTime_playbackRate (outTime : Option ℚ) (s : Viewer) :
    (setVideoOutTime outTime s).playbackRate = s.playbackRate := by
  unfold setVideoOutTime
  simp only []
  split
  · simp
  · rfl

@[simp] theorem setVideoOutTime_graphZoom (outTime : Option ℚ) (s : Viewer) :
    (setVideoOutTime outTime s).graphZoom = s.graphZoom := by
  unfold setVideoOutTime
  simp only []
  split
  · simp
  · rfl

/-- The pending-callback count and the graph after `playingOps`. -/
theorem playingOps_scheduled :
    (runOps playingOps (initialViewer none)).pendingFrames = 1 ∧
    (runOps playingOps (initialViewer none)).graph = true := by
  norm_num [playingOps, pausedOps, tenSecondLog, runOps, step, runOp, initialViewer,
    loadLogFile, selectLog, createGraph, setVideoInTime, setVideoOutTime, invalidateGraph,
    renderSelectedLogInfo, updateCanvasSize, setGraphState, setGraphZoom, Outcome.andThen,
    Outcome.state, runAnimationFrame, animationLoop, updateTime, renderAndContinue,
    logPlayPause, playbackDelta, GRAPH_STATE_PAUSED, GRAPH_STATE_PLAY, GRAPH_DEFAULT_ZOOM,
    GRAPH_MIN_ZOOM, GRAPH_MAX_ZOOM, PLAYBACK_DEFAULT_RATE]
/-! ## Preservation of the invariant -/

theorem inv_initialViewer (video : Option Video) : Inv (initialViewer video) := by
  refine ⟨⟨?_, ?_, ?_⟩, ⟨?_, ?_⟩, ⟨?_, ?_⟩, ?_, ?_⟩ <;>
    norm_num [initialViewer, PLAYBACK_MIN_RATE, PLAYBACK_MAX_RATE, PLAYBACK_DEFAULT_RATE,
      GRAPH_MIN_ZOOM, GRAPH_MAX_ZOOM, GRAPH_DEFAULT_ZOOM]

theorem inv_andThen (r : Outcome) (g : Viewer → Outcome) (hr : Inv r.state)
    (hg : ∀ s, Inv s → Inv (g s).state) : Inv (r.andThen g).state := by
  cases r with
  | ok s => exact hg s hr
  | error s => exact hr

theorem inv_invalidateGraph (s : Viewer) (h : Inv s) : Inv (invalidateGraph s) := by
  obtain ⟨⟨h1, h2, h3⟩, ⟨h4, h5⟩, h6⟩ := h
  refine ⟨⟨by simpa using h1, by simpa using h2, by simpa using h3⟩, ?_,
    by simpa [InRange] using h6⟩
  unfold invalidateGraph Scheduled
  cases hq : s.animationFrameIsQueued <;> simp_all
  omega

theorem inv_syncLogToVideo (s : Viewer) (h : Inv s) : Inv (syncLogToVideo s).state := by
  unfold syncLogToVideo
  split
  · split
    · exact h
    · exact h
  · exact h

theorem inv_setVideoOffset (offset : ℚ) (s : Viewer) (h : Inv s) :
    Inv (setVideoOffset offset s) :=
  inv_invalidateGraph _ h

theorem inv_setGraphState (n : Nat) (s : Viewer) (h : Inv s) :
    Inv (setGraphState n s).state := by
  obtain ⟨⟨h1, h2, h3⟩, ⟨h4, h5⟩, h6⟩ := h
  unfold setGraphState
  simp only []
  split_ifs <;> (try split) <;> simp only [Outcome.state] <;>
    first
    | (apply inv_invalidateGraph
       exact ⟨⟨h1, by first | exact h2 | simp, by simp⟩, ⟨h4, h5⟩, h6⟩)
    | exact ⟨⟨h1, h2, by simp⟩, ⟨h4, h5⟩, h6⟩

theorem inv_setCurrentBlackboxTime (t : ℚ) (s : Viewer) (h : Inv s) :
    Inv (setCurrentBlackboxTime t s).state := by
  unfold setCurrentBlackboxTime
  split
  · split
    · apply inv_andThen
      · apply inv_syncLogToVideo
        obtain ⟨⟨h1, h2, h3⟩, h45, h6⟩ := h
        exact ⟨⟨h1, by simp, h3⟩, h45, h6⟩
      · intro s1 hs1
        exact inv_invalidateGraph _ hs1
    · exact h
  · exact inv_invalidateGraph _ h

theorem inv_setVideoTime (t : ℚ) (s : Viewer) (h : Inv s) : Inv (setVideoTime t s).state := by
  unfold setVideoTime
  split
  · apply inv_syncLogToVideo
    obtain ⟨⟨h1, h2, h3⟩, h45, h6⟩ := h
    exact ⟨⟨h1, by simp, h3⟩, h45, h6⟩
  · exact h

theorem inv_setVideoInTime (t : Option ℚ) (s : Viewer) (h : Inv s) :
    Inv (setVideoInTime t s) := by
  unfold setVideoInTime
  simp only []
  split
  · exact inv_invalidateGraph _ h
  · exact h

theorem inv_setVideoOutTime (t : Option ℚ) (s : Viewer) (h : Inv s) :
    Inv (setVideoOutTime t s) := by
  unfold setVideoOutTime
  simp only []
  split
  · exact inv_invalidateGraph _ h
  · exact h

theorem inv_setPlaybackRate (r : ℚ) (s : Viewer) (h : Inv s) : Inv (setPlaybackRate r s) := by
  unfold setPlaybackRate
  split
  · rename_i hr
    obtain ⟨⟨h1, h2, h3⟩, h45, h6, h7⟩ := h
    simp only []
    split
    · exact ⟨⟨h1, by simp, h3⟩, h45, ⟨hr.1, hr.2⟩, h7⟩
    · exact ⟨⟨h1, h2, h3⟩, h45, ⟨hr.1, hr.2⟩, h7⟩
  · exact h

theorem inv_setGraphZoom (z : ℚ) (s : Viewer) (h : Inv s) : Inv (setGraphZoom z s) := by
  unfold setGraphZoom
  split
  · rename_i hz
    obtain ⟨h123, h45, h6, h7⟩ := h
    simp only []
    split
    · exact inv_invalidateGraph _ ⟨h123, h45, h6, ⟨hz.1, hz.2⟩⟩
    · exact ⟨h123, h45, h6, ⟨hz.1, hz.2⟩⟩
  · exact h

theorem inv_updateCanvasSize (s : Viewer) (h : Inv s) : Inv (updateCanvasSize s) := by
  unfold updateCanvasSize
  split
  · exact inv_invalidateGraph _ h
  · exact h

theorem inv_renderSelectedLogInfo (s : Viewer) (h : Inv s) :
    Inv (renderSelectedLogInfo s).state := by
  unfold renderSelectedLogInfo
  split
  · exact h
  · exact h

/-- In a well-formed state with a graph the time update of a tick returns; it keeps the
objects, the rate and the zoom, and while the flag is set it schedules nothing. -/
theorem updateTime_ok (now : ℤ) (s : Viewer) (hw : WellFormed s) (hg : s.graph = true)
    (hq : s.animationFrameIsQueued = true) :
    ∃ s1, updateTime now s = .ok s1 ∧ s1.graph = true ∧ s1.flightLog = s.flightLog ∧
      s1.hasVideo = s.hasVideo ∧ s1.video = s.video ∧ s1.playbackRate = s.playbackRate ∧
      s1.graphZoom = s.graphZoom ∧ s1.pendingFrames = s.pendingFrames ∧
      s1.animationFrameIsQueued = true := by
  obtain ⟨h1, h2, -⟩ := hw
  obtain ⟨fl, hfl⟩ := Option.isSome_iff_exists.mp (h1 hg)
  unfold updateTime
  by_cases hv : s.hasVideo = true
  · obtain ⟨v, hvid⟩ := Option.isSome_iff_exists.mp (h2 hv)
    simp [hv, blackboxTimeFromVideoTime, hvid, hfl, hg, hq]
  · have hv0 : s.hasVideo = false := by simpa using hv
    rw [if_neg hv]
    by_cases hp : s.graphState = GRAPH_STATE_PLAY
    · rw [if_pos hp]
      simp only [hfl]
      split_ifs
      · simp [setGraphState, GRAPH_STATE_PAUSED, GRAPH_STATE_PLAY, hv0, hg, hfl,
          invalidateGraph, hq]
      · simp [hg, hfl, hq, hv0]
    · rw [if_neg hp]
      simp [hg, hq]

theorem inv_renderAndContinue (now : ℤ) (s : Viewer) (hg : s.graph = true)
    (hfl : s.flightLog.isSome = true) (hvid : s.hasVideo = true → s.video.isSome = true)
    (hr : InRange s) (hp0 : s.pendingFrames = 0) : Inv (renderAndContinue now s) := by
  unfold renderAndContinue
  by_cases hp : s.graphState = GRAPH_STATE_PLAY
  · simp only [hp, if_true]
    exact ⟨⟨fun _ => hfl, hvid, fun _ => hg⟩, ⟨by simp [hp0], by simp [hp0]⟩, hr⟩
  · simp only [hp, if_false]
    exact ⟨⟨fun _ => hfl, hvid, fun _ => hg⟩, ⟨by simp [hp0], by simp [hp0]⟩, hr⟩

theorem inv_runAnimationFrame (now : ℤ) (s : Viewer) (h : Inv s) :
    Inv (runAnimationFrame now s).state := by
  unfold runAnimationFrame
  split
  · exact h
  · rename_i hp
    obtain ⟨⟨h1, h2, h3⟩, ⟨h4, h5⟩, h6⟩ := h
    have hp1 : s.pendingFrames = 1 := by omega
    have hq : s.animationFrameIsQueued = true := h5.mpr hp1
    unfold animationLoop
    by_cases hg : s.graph = true
    · obtain ⟨s1, e1, g1, f1, v1, w1, r1, z1, p1, q1⟩ :=
        updateTime_ok now { s with pendingFrames := s.pendingFrames - 1 } ⟨h1, h2, h3⟩ hg hq
      rw [if_neg (by simp [hg]), e1]
      simp only [Outcome.andThen, Outcome.state]
      have hfl : s1.flightLog.isSome = true := by rw [f1]; exact h1 hg
      have hvid : s1.hasVideo = true → s1.video.isSome = true := by rw [v1, w1]; exact h2
      have hr : InRange s1 := by
        unfold InRange
        rw [r1, z1]
        exact h6
      have hp0 : s1.pendingFrames = 0 := by rw [p1]; simp [hp1]
      exact inv_renderAndContinue now s1 g1 hfl hvid hr hp0
    · have hg0 : s.graph = false := by simpa using hg
      simp only [hg0, Bool.not_false, if_true, Outcome.state]
      exact ⟨⟨by simp [hg0], h2, by simpa [hg0] using h3⟩, ⟨by simp [hp1], by simp [hp1]⟩, h6⟩

theorem inv_createGraph (s : Viewer) (fl : FlightLog) (h : Inv s) :
    Inv (createGraph { s with flightLog := some fl }) := by
  obtain ⟨⟨h1, h2, h3⟩, h45, h6⟩ := h
  unfold createGraph
  by_cases hg : s.graph = true
  · simp only [hg, if_true]
    exact ⟨⟨by simp, h2, by simp⟩, h45, h6⟩
  · simp only [hg, if_false]
    exact ⟨⟨by simp, h2, by simp⟩, h45, h6⟩

theorem inv_selectLog (opened : Option FlightLog) (s : Viewer) (h : Inv s) :
    Inv (selectLog opened s).state := by
  unfold selectLog
  split
  · rename_i fl0 fl hfl0
    have h4 : Inv (setVideoOutTime none (setVideoInTime none
        (createGraph { s with flightLog := some fl }))) :=
      inv_setVideoOutTime _ _ (inv_setVideoInTime _ _ (inv_createGraph s fl h))
    simp only []
    generalize setVideoOutTime none (setVideoInTime none
        (createGraph { s with flightLog := some fl })) = s4 at h4
    apply inv_andThen
    · by_cases hv : s4.hasVideo = true
      · rw [if_pos hv]
        exact inv_syncLogToVideo _ h4
      · rw [if_neg hv]
        exact h4
    · intro s5 h5
      apply inv_andThen
      · exact inv_renderSelectedLogInfo _ h5
      · intro s6 hs6
        apply inv_andThen
        · exact inv_setGraphState _ _ (inv_updateCanvasSize _ hs6)
        · intro s7 hs7
          exact inv_setGraphZoom _ _ hs7
  · exact h

theorem inv_loadLogFile (parsed opened : Option FlightLog) (s : Viewer) (h : Inv s) :
    Inv (loadLogFile parsed opened s).state := by
  unfold loadLogFile
  split
  · apply inv_selectLog
    obtain ⟨⟨h1, h2, h3⟩, h45, h6⟩ := h
    exact ⟨⟨by simp, h2, h3⟩, h45, h6⟩
  · exact h

theorem inv_loadVideo (s : Viewer) (h : Inv s) : Inv (loadVideo s).state := by
  unfold loadVideo
  split
  · exact inv_setPlaybackRate _ _ h
  · exact h

theorem inv_videoLoaded (s : Viewer) (hv : s.video.isSome = true) (h : Inv s) :
    Inv (videoLoaded s).state := by
  unfold videoLoaded
  apply inv_setGraphState
  obtain ⟨⟨h1, h2, h3⟩, h45, h6⟩ := h
  exact ⟨⟨h1, fun _ => hv, h3⟩, h45, h6⟩

theorem inv_showVideoExportDialog (s : Viewer) (h : Inv s) :
    Inv (showVideoExportDialog s).state := by
  unfold showVideoExportDialog
  apply inv_andThen
  · exact inv_setGraphState _ _ h
  · intro s1 h1
    split
    · exact h1
    · exact h1

theorem inv_graphOnSeek (offset : ℚ) (s : Viewer) (h : Inv s) :
    Inv (graphOnSeek offset s).state := by
  unfold graphOnSeek
  apply inv_andThen
  · split
    · split
      · exact inv_setVideoTime _ _ h
      · exact h
    · exact inv_setCurrentBlackboxTime _ _ h
  · intro s1 h1
    exact inv_invalidateGraph _ h1

theorem inv_logJumpBack (s : Viewer) (h : Inv s) : Inv (logJumpBack s).state := by
  unfold logJumpBack
  apply inv_andThen
  · split
    · split
      · exact inv_setVideoTime _ _ h
      · exact h
    · exact inv_setCurrentBlackboxTime _ _ h
  · intro s1 h1
    exact inv_setGraphState _ _ h1

theorem inv_logJumpForward (s : Viewer) (h : Inv s) : Inv (logJumpForward s).state := by
  unfold logJumpForward
  apply inv_andThen
  · split
    · split
      · exact inv_setVideoTime _ _ h
      · exact h
    · exact inv_setCurrentBlackboxTime _ _ h
  · intro s1 h1
    exact inv_setGraphState _ _ h1

theorem inv_logJumpStart (s : Viewer) (h : Inv s) : Inv (logJumpStart s).state := by
  unfold logJumpStart
  split
  · exact inv_andThen _ _ (inv_setCurrentBlackboxTime _ _ h) (inv_setGraphState _)
  · exact h

theorem inv_logJumpEnd (s : Viewer) (h : Inv s) : Inv (logJumpEnd s).state := by
  unfold logJumpEnd
  split
  · exact inv_andThen _ _ (inv_setCurrentBlackboxTime _ _ h) (inv_setGraphState _)
  · exact h

theorem inv_videoJumpStart (s : Viewer) (h : Inv s) : Inv (videoJumpStart s).state :=
  inv_andThen _ _ (inv_setVideoTime _ _ h) (inv_setGraphState _)

theorem inv_videoJumpEnd (s : Viewer) (h : Inv s) : Inv (videoJumpEnd s).state := by
  unfold videoJumpEnd
  split
  · split
    · split
      · exact inv_andThen _ _ (inv_setVideoTime _ _ h) (inv_setGraphState _)
      · exact h
    · exact h
  · exact h

theorem inv_logPlayPause (s : Viewer) (h : Inv s) : Inv (logPlayPause s).state := by
  unfold logPlayPause
  split
  · exact inv_setGraphState _ _ h
  · exact inv_setGraphState _ _ h

theorem inv_logSyncHere (s : Viewer) (h : Inv s) : Inv (logSyncHere s).state := by
  unfold logSyncHere
  split
  · exact inv_setVideoOffset _ _ h
  · exact h

theorem inv_videoOffsetChange (offset : Option ℚ) (s : Viewer) (h : Inv s) :
    Inv (videoOffsetChange offset s) := by
  unfold videoOffsetChange
  split
  · exact inv_invalidateGraph _ h
  · exact h

theorem inv_keydown (which : Nat) (shiftKey ctrlKey metaKey inModal : Bool) (s : Viewer)
    (h : Inv s) : Inv (keydown which shiftKey ctrlKey metaKey inModal s) := by
  unfold keydown
  split_ifs
  · exact inv_setVideoInTime _ _ h
  · exact inv_setVideoInTime _ _ h
  · exact inv_setVideoOutTime _ _ h
  · exact inv_setVideoOutTime _ _ h
  · exact h
  · exact h

theorem inv_layoutPresetChange (s : Viewer) (h : Inv s) :
    Inv (layoutPresetChange s).state := by
  unfold layoutPresetChange
  split
  · exact inv_invalidateGraph _ h
  · exact h

/-- Every operation preserves the invariant. -/
theorem inv_step (s : Viewer) (op : Op) (h : Inv s) : Inv (step s op) := by
  unfold step
  cases op with
  | animationFrame now => exact inv_runAnimationFrame now s h
  | loadLogFile parsed opened => exact inv_loadLogFile parsed opened s h
  | selectLog opened =>
    simp only [runOp]
    split
    · exact inv_selectLog opened s h
    · exact h
  | loadVideo => exact inv_loadVideo s h
  | videoLoaded =>
    simp only [runOp]
    split
    · rename_i hv
      exact inv_videoLoaded s hv h
    · exact h
  | videoElement v =>
    simp only [runOp]
    split
    · obtain ⟨⟨h1, h2, h3⟩, h45, h6⟩ := h
      exact ⟨⟨h1, by simp [Outcome.state], h3⟩, h45, h6⟩
    · exact h
  | updateCanvasSize => exact inv_updateCanvasSize s h
  | graphOnSeek offset =>
    simp only [runOp]
    split
    · exact inv_graphOnSeek offset s h
    · exact h
  | logJumpBack => exact inv_logJumpBack s h
  | logJumpForward => exact inv_logJumpForward s h
  | logJumpStart => exact inv_logJumpStart s h
  | logJumpEnd => exact inv_logJumpEnd s h
  | videoJumpStart => exact inv_videoJumpStart s h
  | videoJumpEnd => exact inv_videoJumpEnd s h
  | logPlayPause => exact inv_logPlayPause s h
  | logSyncHere => exact inv_logSyncHere s h
  | logSyncBack => exact inv_setVideoOffset _ s h
  | logSyncForward => exact inv_setVideoOffset _ s h
  | videoOffsetChange offset => exact inv_videoOffsetChange offset s h
  | keydown which shiftKey ctrlKey metaKey inModal =>
    exact inv_keydown which shiftKey ctrlKey metaKey inModal s h
  | graphPresetChange => exact inv_invalidateGraph s h
  | layoutPresetChange => exact inv_layoutPresetChange s h
  | showVideoExportDialog => exact inv_showVideoExportDialog s h
  | invalidateGraph => exact inv_invalidateGraph s h
  | setGraphState newState => exact inv_setGraphState newState s h
  | setCurrentBlackboxTime newTime => exact inv_setCurrentBlackboxTime newTime s h
  | setVideoOffset offset => exact inv_setVideoOffset offset s h
  | setVideoInTime inTime => exact inv_setVideoInTime inTime s h
  | setVideoOutTime outTime => exact inv_setVideoOutTime outTime s h
  | setPlaybackRate rate => exact inv_setPlaybackRate rate s h
  | setGraphZoom zoom => exact inv_setGraphZoom zoom s h

/-- The invariant holds after every sequence of operations from a state where it holds. -/
theorem inv_runOps (ops : List Op) (s : Viewer) (h : Inv s) : Inv (runOps ops s) := by
  induction ops generalizing s with
  | nil => exact h
  | cons op ops ih => exact ih (step s op) (inv_step s op h)

/-- The invariant holds in every state reachable from the initial one. -/
theorem inv_reachable (ops : List Op) (video : Option Video) :
    Inv (runOps ops (initialViewer video)) :=
  inv_runOps ops _ (inv_initialViewer video)

/-! ## Time mapping -/

/-- C2: a tick that runs with a graph present and a video attached returns and leaves
`currentBlackboxTime = (video.currentTime - videoOffset) * 1000000 + minTime`, whatever
the play state, the previous `currentBlackboxTime`, `lastRenderTime` and `playbackRate`
are; for `videoOffset = 1.5`, `minTime = 2000000` and `video.currentTime = 3.5` this
is `4000000`. -/
theorem animationLoop_video_time :
    (∀ (now : ℤ) (s : Viewer) (v : Video) (fl : FlightLog),
      s.graph = true → s.hasVideo = true → s.video = some v → s.flightLog = some fl →
      ∃ s1, animationLoop now s = .ok s1 ∧
        s1.currentBlackboxTime = (v.currentTime - s.videoOffset) * 1000000 + fl.minTime) ∧
    (∀ (now : ℤ) (s : Viewer) (v : Video) (fl : FlightLog),
      s.graph = true → s.hasVideo = true → s.video = some v → s.flightLog = some fl →
      s.videoOffset = 3 / 2 → fl.minTime = 2000000 → v.currentTime = 7 / 2 →
      ∃ s1, animationLoop now s = .ok s1 ∧ s1.currentBlackboxTime = 4000000) := by
  have main : ∀ (now : ℤ) (s : Viewer) (v : Video) (fl : FlightLog),
      s.graph = true → s.hasVideo = true → s.video = some v → s.flightLog = some fl →
      ∃ s1, animationLoop now s = .ok s1 ∧
        s1.currentBlackboxTime = (v.currentTime - s.videoOffset) * 1000000 + fl.minTime := by
    intro now s v fl hg hv hvid hfl
    refine ⟨renderAndContinue now
      { s with currentBlackboxTime := (v.currentTime - s.videoOffset) * 1000000 + fl.minTime }, ?_, ?_⟩
    · simp [animationLoop, updateTime, blackboxTimeFromVideoTime, Outcome.andThen, hg, hv, hvid, hfl]
    · simp only [renderAndContinue]
      split <;> rfl
  refine ⟨main, ?_⟩
  intro now s v fl hg hv hvid hfl ho hm hc
  obtain ⟨s1, h1, h2⟩ := main now s v fl hg hv hvid hfl
  refine ⟨s1, h1, ?_⟩
  rw [h2, ho, hm, hc]
  norm_num

/-- Witness of C2 on `demoViewerWithVideo`, paused, at wall time 0. -/
theorem animationLoop_video_time_witness :
    ∃ s1, animationLoop 0 demoViewerWithVideo = .ok s1 ∧ s1.currentBlackboxTime = 4000000 :=
  animationLoop_video_time.2 0 demoViewerWithVideo demoVideo demoLog rfl rfl rfl rfl rfl rfl rfl

/-! ## Playback without video -/

/-- C3: in a state the viewer can reach, with no video attached, state PLAYING and
`playbackRate = 100`, a tick that runs `D` milliseconds after the previous tick
(`lastRenderTime = now - D`) and does not carry `currentBlackboxTime` past `maxTime`
returns and has advanced `currentBlackboxTime` by exactly `D * 1000`. -/
theorem animationLoop_advances_by_wall_time (ops : List Op) (video : Option Video)
    (now : ℤ) (D : ℕ) (fl : FlightLog)
    (hv : (runOps ops (initialViewer video)).hasVideo = false)
    (hp : (runOps ops (initialViewer video)).graphState = GRAPH_STATE_PLAY)
    (hr : (runOps ops (initialViewer video)).playbackRate = 100)
    (hl : (runOps ops (initialViewer video)).lastRenderTime = some (now - D))
    (hfl : (runOps ops (initialViewer video)).flightLog = some fl)
    (hmax : (runOps ops (initialViewer video)).currentBlackboxTime + (D : ℚ) * 1000
      ≤ fl.maxTime) :
    ∃ s1, animationLoop now (runOps ops (initialViewer video)) = .ok s1 ∧
      s1.currentBlackboxTime =
        (runOps ops (initialViewer video)).currentBlackboxTime + (D : ℚ) * 1000 := by
  have hinv := inv_reachable ops video
  generalize runOps ops (initialViewer video) = s at *
  have hg : s.graph = true := hinv.1.2.2 (by simp [hl])
  have hd : (playbackDelta now s.lastRenderTime s.playbackRate : ℚ) = (D : ℚ) * 1000 := by
    rw [hl, hr, playbackDelta_rate100]
    push_cast
    ring
  refine ⟨_, animationLoop_integrate now s fl hg hv hp hfl (by rw [hd]; exact hmax), ?_⟩
  simp [hd]

/-- Witness of C3: after `playingOps`, a tick 500 ms after the previous one. -/
theorem animationLoop_advances_by_wall_time_witness :
    ∃ s1, animationLoop 1500 (runOps playingOps (initialViewer none)) = .ok s1 ∧
      s1.currentBlackboxTime =
        (runOps playingOps (initialViewer none)).currentBlackboxTime + ((500 : ℕ) : ℚ) * 1000 :=
  animationLoop_advances_by_wall_time playingOps none 1500 500 tenSecondLog
    playingOps_state.1 playingOps_state.2.1 playingOps_state.2.2.1
    (by rw [playingOps_state.2.2.2.1]; norm_num)
    playingOps_state.2.2.2.2.1
    (by rw [playingOps_state.2.2.2.2.2]; norm_num [tenSecondLog])

/-- C4, as stated, fails: from the paused viewer at time 0 of the log `[0, 10000000]`,
without video and at rate 100, `setGraphState(GRAPH_STATE_PLAY)` followed by one tick at
wall time 500 ms leaves `currentBlackboxTime` at 0, not at 500000. -/
theorem play_then_one_tick_counterexample :
    (pausedViewer.flightLog = some { minTime := 0, maxTime := 10000000 } ∧
      pausedViewer.hasVideo = false ∧ pausedViewer.playbackRate = 100 ∧
      pausedViewer.graphState = GRAPH_STATE_PAUSED ∧ pausedViewer.currentBlackboxTime = 0) ∧
    (runOps [.setGraphState GRAPH_STATE_PLAY, .animationFrame 500]
      pausedViewer).currentBlackboxTime = 0 ∧
    (runOps [.setGraphState GRAPH_STATE_PLAY, .animationFrame 500]
      pausedViewer).currentBlackboxTime ≠ 500000 := by
  norm_num [pausedViewer, tenSecondLog, runOps, step, runOp, initialViewer, invalidateGraph,
    setGraphState, Outcome.andThen, Outcome.state, runAnimationFrame, animationLoop,
    updateTime, renderAndContinue, playbackDelta, GRAPH_STATE_PAUSED, GRAPH_STATE_PLAY,
    PLAYBACK_DEFAULT_RATE]

/-- C4, amended: for the log `[0, 10000000]`, no video, rate 100, state PAUSED and
`currentBlackboxTime = 0`, after `setGraphState(GRAPH_STATE_PLAY)` the first tick, at any
wall time `now`, leaves `currentBlackboxTime` at 0, keeps the state PLAY and records
`lastRenderTime = now`; the tick 500 ms after that one yields 500000. -/
theorem play_then_two_ticks (now : ℤ) (s : Viewer)
    (hg : s.graph = true) (hv : s.hasVideo = false)
    (hfl : s.flightLog = some { minTime := 0, maxTime := 10000000 })
    (hr : s.playbackRate = 100) (_hs : s.graphState = GRAPH_STATE_PAUSED)
    (ht : s.currentBlackboxTime = 0) :
    ∃ s1 s2 s3, setGraphState GRAPH_STATE_PLAY s = .ok s1 ∧
      animationLoop now s1 = .ok s2 ∧ s2.currentBlackboxTime = 0 ∧
      s2.graphState = GRAPH_STATE_PLAY ∧ s2.lastRenderTime = some now ∧
      animationLoop (now + 500) s2 = .ok s3 ∧ s3.currentBlackboxTime = 500000 := by
  have e1 := setGraphState_no_video GRAPH_STATE_PLAY s hv
  have hd1 : (playbackDelta now (invalidateGraph { s with
      graphState := GRAPH_STATE_PLAY, lastRenderTime := none }).lastRenderTime
      (invalidateGraph { s with
        graphState := GRAPH_STATE_PLAY, lastRenderTime := none }).playbackRate : ℚ) = 0 := by
    simp [playbackDelta]
  obtain ⟨s2, e2, t2, p2, l2, g2, v2, f2, r2, -, -⟩ := animationLoop_integrate_facts now
    (invalidateGraph { s with graphState := GRAPH_STATE_PLAY, lastRenderTime := none })
    { minTime := 0, maxTime := 10000000 } (by simpa using hg) (by simpa using hv) (by simp)
    (by simpa using hfl) (by rw [hd1]; simp [ht])
  rw [hd1] at t2
  have ht2 : s2.currentBlackboxTime = 0 := by simpa [ht] using t2
  have hr2 : s2.playbackRate = 100 := by simpa [hr] using r2
  have hd2 : (playbackDelta (now + 500) s2.lastRenderTime s2.playbackRate : ℚ) = 500000 := by
    rw [l2, hr2, playbackDelta_rate100]
    push_cast
    ring
  obtain ⟨s3, e3, t3, -⟩ := animationLoop_integrate_facts (now + 500) s2
    { minTime := 0, maxTime := 10000000 } g2 v2 p2 f2 (by rw [hd2, ht2]; norm_num)
  rw [hd2, ht2] at t3
  exact ⟨_, s2, s3, e1, e2, ht2, p2, l2, e3, by rw [t3]; norm_num⟩

/-- Witness of the amended C4 on `pausedViewer`, the first tick running at 500 ms. -/
theorem play_then_two_ticks_witness :
    ∃ s1 s2 s3, setGraphState GRAPH_STATE_PLAY pausedViewer = .ok s1 ∧
      animationLoop 500 s1 = .ok s2 ∧ s2.currentBlackboxTime = 0 ∧
      s2.graphState = GRAPH_STATE_PLAY ∧ s2.lastRenderTime = some 500 ∧
      animationLoop (500 + 500) s2 = .ok s3 ∧ s3.currentBlackboxTime = 500000 :=
  play_then_two_ticks 500 pausedViewer rfl rfl rfl rfl rfl rfl

/-- C5, as stated, fails: on `nearEndViewer` (playing, no video, 9500000 of 10000000,
last tick at 1000 ms) the tick at 1500 ms integrates 500000 and brings
`currentBlackboxTime` to exactly `maxTime`, and the state is still PLAY after it. -/
theorem tick_reaching_maxTime_counterexample :
    nearEndViewer.hasVideo = false ∧ nearEndViewer.graphState = GRAPH_STATE_PLAY ∧
    nearEndViewer.currentBlackboxTime +
      (playbackDelta 1500 nearEndViewer.lastRenderTime nearEndViewer.playbackRate : ℚ) =
        tenSecondLog.maxTime ∧
    (animationLoop 1500 nearEndViewer).state.currentBlackboxTime = tenSecondLog.maxTime ∧
    (animationLoop 1500 nearEndViewer).state.graphState = GRAPH_STATE_PLAY ∧
    (animationLoop 1500 nearEndViewer).state.graphState ≠ GRAPH_STATE_PAUSED := by
  norm_num [nearEndViewer, playingViewer, tenSecondLog, initialViewer, Outcome.andThen,
    Outcome.state, animationLoop, updateTime, renderAndContinue, playbackDelta,
    GRAPH_STATE_PAUSED, GRAPH_STATE_PLAY, PLAYBACK_DEFAULT_RATE]

/-- C5, amended: with a graph, no video and state PLAY, a tick whose integration carries
`currentBlackboxTime` strictly past `maxTime` sets it to `maxTime` and forces the state
to PAUSED; a tick whose integration brings it to exactly `maxTime` keeps the state PLAY;
every tick without video that starts at or before `maxTime` ends at or before `maxTime`;
and a tick in a state other than PLAY leaves `currentBlackboxTime` as it is. -/
theorem animationLoop_end_of_log (now : ℤ) (s : Viewer) (fl : FlightLog)
    (hg : s.graph = true) (hv : s.hasVideo = false) (hfl : s.flightLog = some fl) :
    (s.graphState = GRAPH_STATE_PLAY →
      fl.maxTime <
        s.currentBlackboxTime + (playbackDelta now s.lastRenderTime s.playbackRate : ℚ) →
      ∃ s1, animationLoop now s = .ok s1 ∧ s1.currentBlackboxTime = fl.maxTime ∧
        s1.graphState = GRAPH_STATE_PAUSED) ∧
    (s.graphState = GRAPH_STATE_PLAY →
      s.currentBlackboxTime + (playbackDelta now s.lastRenderTime s.playbackRate : ℚ) =
        fl.maxTime →
      ∃ s1, animationLoop now s = .ok s1 ∧ s1.currentBlackboxTime = fl.maxTime ∧
        s1.graphState = GRAPH_STATE_PLAY) ∧
    (s.currentBlackboxTime ≤ fl.maxTime →
      ∃ s1, animationLoop now s = .ok s1 ∧ s1.currentBlackboxTime ≤ fl.maxTime) ∧
    (s.graphState ≠ GRAPH_STATE_PLAY →
      ∃ s1, animationLoop now s = .ok s1 ∧ s1.currentBlackboxTime = s.currentBlackboxTime ∧
        s1.graphState = s.graphState) := by
  have past : s.graphState = GRAPH_STATE_PLAY →
      fl.maxTime <
        s.currentBlackboxTime + (playbackDelta now s.lastRenderTime s.playbackRate : ℚ) →
      ∃ s1, animationLoop now s = .ok s1 ∧ s1.currentBlackboxTime = fl.maxTime ∧
        s1.graphState = GRAPH_STATE_PAUSED := by
    intro hp hgt
    exact ⟨_, animationLoop_clamp now s fl hg hv hp hfl hgt, by simp, by simp⟩
  have within : s.graphState = GRAPH_STATE_PLAY →
      s.currentBlackboxTime + (playbackDelta now s.lastRenderTime s.playbackRate : ℚ)
        ≤ fl.maxTime →
      ∃ s1, animationLoop now s = .ok s1 ∧ s1.currentBlackboxTime =
        s.currentBlackboxTime + (playbackDelta now s.lastRenderTime s.playbackRate : ℚ) ∧
        s1.graphState = GRAPH_STATE_PLAY := by
    intro hp hle
    exact ⟨_, animationLoop_integrate now s fl hg hv hp hfl hle, by simp, by simp [hp]⟩
  have idle : s.graphState ≠ GRAPH_STATE_PLAY →
      ∃ s1, animationLoop now s = .ok s1 ∧ s1.currentBlackboxTime = s.currentBlackboxTime ∧
        s1.graphState = s.graphState := by
    intro hp
    exact ⟨_, animationLoop_idle now s hg hv hp, by simp, by simp⟩
  refine ⟨past, ?_, ?_, idle⟩
  · intro hp heq
    obtain ⟨s1, e1, t1, p1⟩ := within hp (le_of_eq heq)
    exact ⟨s1, e1, by rw [t1, heq], p1⟩
  · intro hstart
    by_cases hp : s.graphState = GRAPH_STATE_PLAY
    · rcases lt_or_le fl.maxTime
        (s.currentBlackboxTime + (playbackDelta now s.lastRenderTime s.playbackRate : ℚ))
        with hgt | hle
      · obtain ⟨s1, e1, t1, -⟩ := past hp hgt
        exact ⟨s1, e1, le_of_eq t1⟩
      · obtain ⟨s1, e1, t1, -⟩ := within hp hle
        exact ⟨s1, e1, by rw [t1]; exact hle⟩
    · obtain ⟨s1, e1, t1, -⟩ := idle hp
      exact ⟨s1, e1, by rw [t1]; exact hstart⟩

/-- Witness of the amended C5 on `nearEndViewer`: the tick at 1501 ms passes the end of
the log and pauses, the tick at 1500 ms lands on it and keeps playing. -/
theorem animationLoop_end_of_log_witness :
    (∃ s1, animationLoop 1501 nearEndViewer = .ok s1 ∧
      s1.currentBlackboxTime = tenSecondLog.maxTime ∧ s1.graphState = GRAPH_STATE_PAUSED) ∧
    (∃ s1, animationLoop 1500 nearEndViewer = .ok s1 ∧
      s1.currentBlackboxTime = tenSecondLog.maxTime ∧ s1.graphState = GRAPH_STATE_PLAY) ∧
    (∃ s1, animationLoop 1500 nearEndViewer = .ok s1 ∧
      s1.currentBlackboxTime ≤ tenSecondLog.maxTime) ∧
    (∃ s1, animationLoop 1500 pausedViewer = .ok s1 ∧
      s1.currentBlackboxTime = pausedViewer.currentBlackboxTime ∧
      s1.graphState = pausedViewer.graphState) :=
  ⟨(animationLoop_end_of_log 1501 nearEndViewer tenSecondLog rfl rfl rfl).1 rfl
      (by norm_num [nearEndViewer, playingViewer, tenSecondLog, initialViewer, playbackDelta,
        PLAYBACK_DEFAULT_RATE]),
    (animationLoop_end_of_log 1500 nearEndViewer tenSecondLog rfl rfl rfl).2.1 rfl
      (by norm_num [nearEndViewer, playingViewer, tenSecondLog, initialViewer, playbackDelta,
        PLAYBACK_DEFAULT_RATE]),
    (animationLoop_end_of_log 1500 nearEndViewer tenSecondLog rfl rfl rfl).2.2.1
      (by norm_num [nearEndViewer, playingViewer, tenSecondLog, initialViewer]),
    (animationLoop_end_of_log 1500 pausedViewer tenSecondLog rfl rfl rfl).2.2.2
      (by decide)⟩

/-! ## Rate and zoom -/

/-- C6: `setPlaybackRate(r)` stores `r` (and hands `r / 100` to the video element) when
`5 <= r <= 300` and leaves the whole state as it is for every other `r`, so it changes
`playbackRate` only for an `r` within the bounds; 4 and 301 are ignored; after
`setPlaybackRate(150)` the integration step is `floor((now - lastRenderTime) * 1000 * 1.5)`
and a PLAY tick without video adds exactly that. -/
theorem setPlaybackRate_effective_iff_in_range :
    (∀ (r : ℚ) (s : Viewer), 5 ≤ r → r ≤ 300 →
      (setPlaybackRate r s).playbackRate = r ∧
      (setPlaybackRate r s).video = s.video.map fun v => { v with playbackRate := r / 100 }) ∧
    (∀ (r : ℚ) (s : Viewer), ¬(5 ≤ r ∧ r ≤ 300) → setPlaybackRate r s = s) ∧
    (∀ (r : ℚ) (s : Viewer),
      (setPlaybackRate r s).playbackRate ≠ s.playbackRate → 5 ≤ r ∧ r ≤ 300) ∧
    (∀ s : Viewer, setPlaybackRate 4 s = s ∧ setPlaybackRate 301 s = s) ∧
    (∀ (s : Viewer) (now last : ℤ),
      (setPlaybackRate 150 s).playbackRate = 150 ∧
      playbackDelta now (some last) (setPlaybackRate 150 s).playbackRate =
        ⌊(((now - last : ℤ) : ℚ)) * 1000 * (3 / 2)⌋) ∧
    (∀ (s : Viewer) (now last : ℤ) (fl : FlightLog),
      s.graph = true → s.hasVideo = false → s.graphState = GRAPH_STATE_PLAY →
      s.lastRenderTime = some last → s.flightLog = some fl →
      s.currentBlackboxTime + ((⌊(((now - last : ℤ) : ℚ)) * 1000 * (3 / 2)⌋ : ℤ) : ℚ)
        ≤ fl.maxTime →
      ∃ s1, animationLoop now (setPlaybackRate 150 s) = .ok s1 ∧
        s1.currentBlackboxTime =
          s.currentBlackboxTime + ((⌊(((now - last : ℤ) : ℚ)) * 1000 * (3 / 2)⌋ : ℤ) : ℚ)) := by
  have h150 : ∀ s : Viewer, (setPlaybackRate 150 s).playbackRate = 150 := fun s =>
    (setPlaybackRate_in_range 150 s (by norm_num [PLAYBACK_MIN_RATE, PLAYBACK_MAX_RATE])).1
  have hdelta : ∀ (s : Viewer) (now last : ℤ),
      playbackDelta now (some last) (setPlaybackRate 150 s).playbackRate =
        ⌊(((now - last : ℤ) : ℚ)) * 1000 * (3 / 2)⌋ := by
    intro s now last
    have h : (((now - last : ℤ) : ℚ)) * 1000 * 150 / 100 =
        (((now - last : ℤ) : ℚ)) * 1000 * (3 / 2) := by
      ring
    rw [h150]
    simp only [playbackDelta, h]
  refine ⟨?_, ?_, ?_, ?_, fun s now last => ⟨h150 s, hdelta s now last⟩, ?_⟩
  · intro r s h1 h2
    exact setPlaybackRate_in_range r s ⟨h1, h2⟩
  · intro r s h
    exact setPlaybackRate_out_of_range r s h
  · intro r s hne
    by_contra hr
    exact hne (by rw [setPlaybackRate_out_of_range r s hr])
  · intro s
    exact ⟨setPlaybackRate_out_of_range 4 s
        (by norm_num [PLAYBACK_MIN_RATE, PLAYBACK_MAX_RATE]),
      setPlaybackRate_out_of_range 301 s
        (by norm_num [PLAYBACK_MIN_RATE, PLAYBACK_MAX_RATE])⟩
  · intro s now last fl hg hv hp hl hfl hle
    have hd : playbackDelta now (setPlaybackRate 150 s).lastRenderTime
        (setPlaybackRate 150 s).playbackRate = ⌊(((now - last : ℤ) : ℚ)) * 1000 * (3 / 2)⌋ := by
      rw [setPlaybackRate_lastRenderTime, hl]
      exact hdelta s now last
    have e := animationLoop_integrate now (setPlaybackRate 150 s) fl (by simpa using hg)
      (by simpa using hv) (by simpa using hp) (by simpa using hfl)
      (by rw [hd]; simpa using hle)
    rw [hd] at e
    exact ⟨_, e, by simp⟩

/-- Witness of C6: rates 150, 4 and 301 on `playingViewer`, and the tick at 1500 ms
after `setPlaybackRate(150)`. -/
theorem setPlaybackRate_effective_iff_in_range_witness :
    ((setPlaybackRate 150 playingViewer).playbackRate = 150 ∧
      (setPlaybackRate 150 playingViewer).video =
        playingViewer.video.map fun v => { v with playbackRate := 150 / 100 }) ∧
    setPlaybackRate 4 playingViewer = playingViewer ∧
    (∃ s1, animationLoop 1500 (setPlaybackRate 150 playingViewer) = .ok s1 ∧
      s1.currentBlackboxTime = playingViewer.currentBlackboxTime +
        ((⌊(((1500 - 1000 : ℤ) : ℚ)) * 1000 * (3 / 2)⌋ : ℤ) : ℚ)) :=
  ⟨setPlaybackRate_effective_iff_in_range.1 150 playingViewer (by norm_num) (by norm_num),
    setPlaybackRate_effective_iff_in_range.2.1 4 playingViewer (by norm_num),
    setPlaybackRate_effective_iff_in_range.2.2.2.2.2 playingViewer 1500 1000 tenSecondLog
      rfl rfl rfl rfl rfl
      (by norm_num [playingViewer, tenSecondLog, initialViewer])⟩

/-- C7: after every sequence of operations from the initial state `playbackRate` is
within `[5, 300]` and `graphZoom` within `[10, 1000]`; a request outside the bounds leaves
the state, and so the old value, as it is; and `setGraphZoom(z)` with `z` within the
bounds and a graph present stores `z`, calls `graph.setGraphZoom(z / 100)` and then
`invalidateGraph()`. -/
theorem rate_and_zoom_stay_in_range :
    (∀ (ops : List Op) (video : Option Video),
      (5 ≤ (runOps ops (initialViewer video)).playbackRate ∧
        (runOps ops (initialViewer video)).playbackRate ≤ 300) ∧
      (10 ≤ (runOps ops (initialViewer video)).graphZoom ∧
        (runOps ops (initialViewer video)).graphZoom ≤ 1000)) ∧
    (initialViewer none).playbackRate = 100 ∧ (initialViewer none).graphZoom = 100 ∧
    (∀ (r : ℚ) (s : Viewer), ¬(5 ≤ r ∧ r ≤ 300) → setPlaybackRate r s = s) ∧
    (∀ (z : ℚ) (s : Viewer), ¬(10 ≤ z ∧ z ≤ 1000) → setGraphZoom z s = s) ∧
    (∀ (z : ℚ) (s : Viewer), 10 ≤ z → z ≤ 1000 → s.graph = true →
      setGraphZoom z s = invalidateGraph { s with
        graphZoom := z
        calls := s.calls ++ [Call.graphSetGraphZoom (z / 100)] }) := by
  refine ⟨?_, rfl, rfl, ?_, ?_, ?_⟩
  · intro ops video
    exact (inv_reachable ops video).2.2
  · intro r s h
    exact setPlaybackRate_out_of_range r s h
  · intro z s h
    unfold setGraphZoom
    rw [if_neg (by exact h)]
  · intro z s h1 h2 hg
    unfold setGraphZoom
    rw [if_pos (by exact ⟨h1, h2⟩)]
    simp [hg]

/-- Witness of C7: zoom 1001 and rate 301 are ignored on `playingViewer`, zoom 200 is
forwarded as 2. -/
theorem rate_and_zoom_stay_in_range_witness :
    setPlaybackRate 301 playingViewer = playingViewer ∧
    setGraphZoom 1001 playingViewer = playingViewer ∧
    setGraphZoom 200 playingViewer = invalidateGraph { playingViewer with
      graphZoom := 200
      calls := playingViewer.calls ++ [Call.graphSetGraphZoom (200 / 100)] } :=
  ⟨rate_and_zoom_stay_in_range.2.2.2.1 301 playingViewer (by norm_num),
    rate_and_zoom_stay_in_range.2.2.2.2.1 1001 playingViewer (by norm_num),
    rate_and_zoom_stay_in_range.2.2.2.2.2 200 playingViewer (by norm_num) (by norm_num) rfl⟩

/-! ## Scheduling -/

/-- C8: `invalidateGraph` is idempotent: two calls in a row leave the same state, the
queue of scheduled callbacks included, as one call; from an idle state they issue exactly
one `requestAnimationFrame`, and with a tick already pending they issue none and change
nothing. -/
theorem invalidateGraph_idempotent :
    (∀ s : Viewer, invalidateGraph (invalidateGraph s) = invalidateGraph s) ∧
    (∀ s : Viewer, s.animationFrameIsQueued = false →
      (invalidateGraph (invalidateGraph s)).pendingFrames = s.pendingFrames + 1 ∧
      (invalidateGraph (invalidateGraph s)).animationFrameIsQueued = true) ∧
    (∀ s : Viewer, s.animationFrameIsQueued = true →
      invalidateGraph (invalidateGraph s) = s) := by
  refine ⟨?_, ?_, ?_⟩
  · intro s
    cases hq : s.animationFrameIsQueued <;> simp [invalidateGraph, hq]
  · intro s hq
    simp [invalidateGraph, hq]
  · intro s hq
    simp [invalidateGraph, hq]

/-- Witness of C8: `pausedViewer` is idle, `playingViewer` has a tick pending. -/
theorem invalidateGraph_idempotent_witness :
    ((invalidateGraph (invalidateGraph pausedViewer)).pendingFrames =
        pausedViewer.pendingFrames + 1 ∧
      (invalidateGraph (invalidateGraph pausedViewer)).animationFrameIsQueued = true) ∧
    invalidateGraph (invalidateGraph playingViewer) = playingViewer :=
  ⟨invalidateGraph_idempotent.2.1 pausedViewer rfl,
    invalidateGraph_idempotent.2.2 playingViewer rfl⟩

/-- C9: in every state reachable from the initial state by any sequence of operations
(calls of the exposed functions, event handlers, and runs of a pending tick) at most one
`animationLoop` callback is outstanding, and `animationFrameIsQueued` is true exactly
when one is. -/
theorem at_most_one_tick_outstanding (ops : List Op) (video : Option Video) :
    (runOps ops (initialViewer video)).pendingFrames ≤ 1 ∧
    ((runOps ops (initialViewer video)).animationFrameIsQueued = true ↔
      (runOps ops (initialViewer video)).pendingFrames = 1) :=
  (inv_reachable ops video).2.1

/-! ## Markers -/

/-- C10: with a graph present and no modifier held, key I sets `videoExportInTime` to
`currentBlackboxTime` unless it already is `currentBlackboxTime`, in which case it sets it
to `false`; so setting the in-marker at the current time and pressing I again clears it,
as does pressing I twice from a marker that differed.  Key I leaves the out-marker and
`currentBlackboxTime` alone.  The same holds for key O and the out-marker. -/
theorem keydown_toggles_marker (s : Viewer) (hg : s.graph = true) :
    ((s.videoExportInTime ≠ some s.currentBlackboxTime →
        (keydown 73 false false false false s).videoExportInTime = some s.currentBlackboxTime) ∧
      (s.videoExportInTime = some s.currentBlackboxTime →
        (keydown 73 false false false false s).videoExportInTime = none) ∧
      (keydown 73 false false false false
        (setVideoInTime (some s.currentBlackboxTime) s)).videoExportInTime = none ∧
      (s.videoExportInTime ≠ some s.currentBlackboxTime →
        (keydown 73 false false false false
          (keydown 73 false false false false s)).videoExportInTime = none) ∧
      (keydown 73 false false false false s).videoExportOutTime = s.videoExportOutTime ∧
      (keydown 73 false false false false s).currentBlackboxTime = s.currentBlackboxTime) ∧
    ((s.videoExportOutTime ≠ some s.currentBlackboxTime →
        (keydown 79 false false false false s).videoExportOutTime = some s.currentBlackboxTime) ∧
      (s.videoExportOutTime = some s.currentBlackboxTime →
        (keydown 79 false false false false s).videoExportOutTime = none) ∧
      (keydown 79 false false false false
        (setVideoOutTime (some s.currentBlackboxTime) s)).videoExportOutTime = none ∧
      (s.videoExportOutTime ≠ some s.currentBlackboxTime →
        (keydown 79 false false false false
          (keydown 79 false false false false s)).videoExportOutTime = none) ∧
      (keydown 79 false false false false s).videoExportInTime = s.videoExportInTime ∧
      (keydown 79 false false false false s).currentBlackboxTime = s.currentBlackboxTime) := by
  have hI : ∀ s : Viewer, s.graph = true →
      keydown 73 false false false false s =
        if s.videoExportInTime = some s.currentBlackboxTime then setVideoInTime none s
        else setVideoInTime (some s.currentBlackboxTime) s := by
    intro s hg
    simp [keydown, hg]
  have hO : ∀ s : Viewer, s.graph = true →
      keydown 79 false false false false s =
        if s.videoExportOutTime = some s.currentBlackboxTime then setVideoOutTime none s
        else setVideoOutTime (some s.currentBlackboxTime) s := by
    intro s hg
    simp [keydown, hg]
  refine ⟨⟨?_, ?_, ?_, ?_, ?_, ?_⟩, ⟨?_, ?_, ?_, ?_, ?_, ?_⟩⟩
  · intro h
    rw [hI s hg, if_neg h]
    simp
  · intro h
    rw [hI s hg, if_pos h]
    simp
  · rw [hI _ (by simpa using hg), if_pos (by simp)]
    simp
  · intro h
    rw [hI s hg, if_neg h, hI _ (by simpa using hg), if_pos (by simp)]
    simp
  · rw [hI s hg]
    split <;> simp
  · rw [hI s hg]
    split <;> simp
  · intro h
    rw [hO s hg, if_neg h]
    simp
  · intro h
    rw [hO s hg, if_pos h]
    simp
  · rw [hO _ (by simpa using hg), if_pos (by simp)]
    simp
  · intro h
    rw [hO s hg, if_neg h, hO _ (by simpa using hg), if_pos (by simp)]
    simp
  · rw [hO s hg]
    split <;> simp
  · rw [hO s hg]
    split <;> simp

/-- Witness of C10 on `playingViewer`, whose markers are both unset and whose time is 0. -/
theorem keydown_toggles_marker_witness :
    (keydown 73 false false false false playingViewer).videoExportInTime =
      some playingViewer.currentBlackboxTime ∧
    (keydown 73 false false false false
      (keydown 73 false false false false playingViewer)).videoExportInTime = none ∧
    (keydown 79 false false false false playingViewer).videoExportOutTime =
      some playingViewer.currentBlackboxTime ∧
    (keydown 79 false false false false
      (keydown 79 false false false false playingViewer)).videoExportOutTime = none :=
  ⟨(keydown_toggles_marker playingViewer rfl).1.1 (by simp [playingViewer, initialViewer]),
    (keydown_toggles_marker playingViewer rfl).1.2.2.2.1 (by simp [playingViewer, initialViewer]),
    (keydown_toggles_marker playingViewer rfl).2.1 (by simp [playingViewer, initialViewer]),
    (keydown_toggles_marker playingViewer rfl).2.2.2.2.1
      (by simp [playingViewer, initialViewer])⟩

/-! ## More of what the functions leave alone -/

/-- A projection that `g` preserves is, after `r.andThen g`, what it was after `r`. -/
theorem state_andThen_proj {α : Type} (f : Viewer → α) (r : Outcome) (g : Viewer → Outcome)
    (hg : ∀ s, f (g s).state = f s) : f (r.andThen g).state = f r.state := by
  cases r with
  | ok s => exact hg s
  | error s => rfl

@[simp] theorem setGraphState_state_graphState (n : Nat) (s : Viewer) :
    (setGraphState n s).state.graphState = n := by
  unfold setGraphState
  simp only []
  split_ifs <;> (try split) <;> simp [Outcome.state]

@[simp] theorem setGraphState_state_lastRenderTime (n : Nat) (s : Viewer) :
    (setGraphState n s).state.lastRenderTime = none := by
  unfold setGraphState
  simp only []
  split_ifs <;> (try split) <;> simp [Outcome.state]

@[simp] theorem setGraphState_state_currentBlackboxTime (n : Nat) (s : Viewer) :
    (setGraphState n s).state.currentBlackboxTime = s.currentBlackboxTime := by
  unfold setGraphState
  simp only []
  split_ifs <;> (try split) <;> simp [Outcome.state]

@[simp] theorem setGraphState_state_flightLog (n : Nat) (s : Viewer) :
    (setGraphState n s).state.flightLog = s.flightLog := by
  unfold setGraphState
  simp only []
  split_ifs <;> (try split) <;> simp [Outcome.state]

@[simp] theorem setGraphState_state_graph (n : Nat) (s : Viewer) :
    (setGraphState n s).state.graph = s.graph := by
  unfold setGraphState
  simp only []
  split_ifs <;> (try split) <;> simp [Outcome.state]

@[simp] theorem setGraphState_state_hasVideo (n : Nat) (s : Viewer) :
    (setGraphState n s).state.hasVideo = s.hasVideo := by
  unfold setGraphState
  simp only []
  split_ifs <;> (try split) <;> simp [Outcome.state]

@[simp] theorem setGraphState_state_hasLog (n : Nat) (s : Viewer) :
    (setGraphState n s).state.hasLog = s.hasLog := by
  unfold setGraphState
  simp only []
  split_ifs <;> (try split) <;> simp [Outcome.state]

@[simp] theorem setGraphState_state_videoOffset (n : Nat) (s : Viewer) :
    (setGraphState n s).state.videoOffset = s.videoOffset := by
  unfold setGraphState
  simp only []
  split_ifs <;> (try split) <;> simp [Outcome.state]

@[simp] theorem setGraphState_state_videoExportInTime (n : Nat) (s : Viewer) :
    (setGraphState n s).state.videoExportInTime = s.videoExportInTime := by
  unfold setGraphState
  simp only []
  split_ifs <;> (try split) <;> simp [Outcome.state]

@[simp] theorem setGraphState_state_videoExportOutTime (n : Nat) (s : Viewer) :
    (setGraphState n s).state.videoExportOutTime = s.videoExportOutTime := by
  unfold setGraphState
  simp only []
  split_ifs <;> (try split) <;> simp [Outcome.state]

@[simp] theorem setGraphState_state_graphRendersCount (n : Nat) (s : Viewer) :
    (setGraphState n s).state.graphRendersCount = s.graphRendersCount := by
  unfold setGraphState
  simp only []
  split_ifs <;> (try split) <;> simp [Outcome.state]

@[simp] theorem setGraphState_state_playbackRate (n : Nat) (s : Viewer) :
    (setGraphState n s).state.playbackRate = s.playbackRate := by
  unfold setGraphState
  simp only []
  split_ifs <;> (try split) <;> simp [Outcome.state]

@[simp] theorem setGraphState_state_graphZoom (n : Nat) (s : Viewer) :
    (setGraphState n s).state.graphZoom = s.graphZoom := by
  unfold setGraphState
  simp only []
  split_ifs <;> (try split) <;> simp [Outcome.state]

@[simp] theorem setGraphState_state_calls (n : Nat) (s : Viewer) :
    (setGraphState n s).state.calls = s.calls := by
  unfold setGraphState
  simp only []
  split_ifs <;> (try split) <;> simp [Outcome.state]

@[simp] theorem syncLogToVideo_state_graphState (s : Viewer) :
    (syncLogToVideo s).state.graphState = s.graphState := by
  unfold syncLogToVideo
  split
  · split <;> rfl
  · rfl

@[simp] theorem syncLogToVideo_state_lastRenderTime (s : Viewer) :
    (syncLogToVideo s).state.lastRenderTime = s.lastRenderTime := by
  unfold syncLogToVideo
  split
  · split <;> rfl
  · rfl

@[simp] theorem syncLogToVideo_state_flightLog (s : Viewer) :
    (syncLogToVideo s).state.flightLog = s.flightLog := by
  unfold syncLogToVideo
  split
  · split <;> rfl
  · rfl

@[simp] theorem syncLogToVideo_state_graph (s : Viewer) :
    (syncLogToVideo s).state.graph = s.graph := by
  unfold syncLogToVideo
  split
  · split <;> rfl
  · rfl

@[simp] theorem syncLogToVideo_state_hasVideo (s : Viewer) :
    (syncLogToVideo s).state.hasVideo = s.hasVideo := by
  unfold syncLogToVideo
  split
  · split <;> rfl
  · rfl

@[simp] theorem syncLogToVideo_state_hasLog (s : Viewer) :
    (syncLogToVideo s).state.hasLog = s.hasLog := by
  unfold syncLogToVideo
  split
  · split <;> rfl
  · rfl

@[simp] theorem syncLogToVideo_state_video (s : Viewer) :
    (syncLogToVideo s).state.video = s.video := by
  unfold syncLogToVideo
  split
  · split <;> rfl
  · rfl

@[simp] theorem syncLogToVideo_state_videoOffset (s : Viewer) :
    (syncLogToVideo s).state.videoOffset = s.videoOffset := by
  unfold syncLogToVideo
  split
  · split <;> rfl
  · rfl

@[simp] theorem syncLogToVideo_state_videoExportInTime (s : Viewer) :
    (syncLogToVideo s).state.videoExportInTime = s.videoExportInTime := by
  unfold syncLogToVideo
  split
  · split <;> rfl
  · rfl

@[simp] theorem syncLogToVideo_state_videoExportOutTime (s : Viewer) :
    (syncLogToVideo s).state.videoExportOutTime = s.videoExportOutTime := by
  unfold syncLogToVideo
  split
  · split <;> rfl
  · rfl

@[simp] theorem syncLogToVideo_state_graphRendersCount (s : Viewer) :
    (syncLogToVideo s).state.graphRendersCount = s.graphRendersCount := by
  unfold syncLogToVideo
  split
  · split <;> rfl
  · rfl

@[simp] theorem syncLogToVideo_state_animationFrameIsQueued (s : Viewer) :
    (syncLogToVideo s).state.animationFrameIsQueued = s.animationFrameIsQueued := by
  unfold syncLogToVideo
  split
  · split <;> rfl
  · rfl

@[simp] theorem syncLogToVideo_state_playbackRate (s : Viewer) :
    (syncLogToVideo s).state.playbackRate = s.playbackRate := by
  unfold syncLogToVideo
  split
  · split <;> rfl
  · rfl

@[simp] theorem syncLogToVideo_state_graphZoom (s : Viewer) :
    (syncLogToVideo s).state.graphZoom = s.graphZoom := by
  unfold syncLogToVideo
  split
  · split <;> rfl
  · rfl

@[simp] theorem syncLogToVideo_state_pendingFrames (s : Viewer) :
    (syncLogToVideo s).state.pendingFrames = s.pendingFrames := by
  unfold syncLogToVideo
  split
  · split <;> rfl
  · rfl

@[simp] theorem syncLogToVideo_state_calls (s : Viewer) :
    (syncLogToVideo s).state.calls = s.calls := by
  unfold syncLogToVideo
  split
  · split <;> rfl
  · rfl

@[simp] theorem setVideoTime_state_graphState (newTime : ℚ) (s : Viewer) :
    (setVideoTime newTime s).state.graphState = s.graphState := by
  unfold setVideoTime
  split
  · simp
  · rfl

@[simp] theorem setVideoTime_state_lastRenderTime (newTime : ℚ) (s : Viewer) :
    (setVideoTime newTime s).state.lastRenderTime = s.lastRenderTime := by
  unfold setVideoTime
  split
  · simp
  · rfl

@[simp] theorem setVideoTime_state_flightLog (newTime : ℚ) (s : Viewer) :
    (setVideoTime newTime s).state.flightLog = s.flightLog := by
  unfold setVideoTime
  split
  · simp
  · rfl

@[simp] theorem setVideoTime_state_graph (newTime : ℚ) (s : Viewer) :
    (setVideoTime newTime s).state.graph = s.graph := by
  unfold setVideoTime
  split
  · simp
  · rfl

@[simp] theorem setVideoTime_state_hasVideo (newTime : ℚ) (s : Viewer) :
    (setVideoTime newTime s).state.hasVideo = s.hasVideo := by
  unfold setVideoTime
  split
  · simp
  · rfl

@[simp] theorem setVideoTime_state_hasLog (newTime : ℚ) (s : Viewer) :
    (setVideoTime newTime s).state.hasLog = s.hasLog := by
  unfold setVideoTime
  split
  · simp
  · rfl

@[simp] theorem setVideoTime_state_videoOffset (newTime : ℚ) (s : Viewer) :
    (setVideoTime newTime s).state.videoOffset = s.videoOffset := by
  unfold setVideoTime
  split
  · simp
  · rfl

@[simp] theorem setVideoTime_state_videoExportInTime (newTime : ℚ) (s : Viewer) :
    (setVideoTime newTime s).state.videoExportInTime = s.videoExportInTime := by
  unfold setVideoTime
  split
  · simp
  · rfl

@[simp] theorem setVideoTime_state_videoExportOutTime (newTime : ℚ) (s : Viewer) :
    (setVideoTime newTime s).state.videoExportOutTime = s.videoExportOutTime := by
  unfold setVideoTime
  split
  · simp
  · rfl

@[simp] theorem setVideoTime_state_graphRendersCount (newTime : ℚ) (s : Viewer) :
    (setVideoTime newTime s).state.graphRendersCount = s.graphRendersCount := by
  unfold setVideoTime
  split
  · simp
  · rfl

@[simp] theorem setVideoTime_state_animationFrameIsQueued (newTime : ℚ) (s : Viewer) :
    (setVideoTime newTime s).state.animationFrameIsQueued = s.animationFrameIsQueued := by
  unfold setVideoTime
  split
  · simp
  · rfl

@[simp] theorem setVideoTime_state_playbackRate (newTime : ℚ) (s : Viewer) :
    (setVideoTime newTime s).state.playbackRate = s.playbackRate := by
  unfold setVideoTime
  split
  · simp
  · rfl

@[simp] theorem setVideoTime_state_graphZoom (newTime : ℚ) (s : Viewer) :
    (setVideoTime newTime s).state.graphZoom = s.graphZoom := by
  unfold setVideoTime
  split
  · simp
  · rfl

@[simp] theorem setVideoTime_state_pendingFrames (newTime : ℚ) (s : Viewer) :
    (setVideoTime newTime s).state.pendingFrames = s.pendingFrames := by
  unfold setVideoTime
  split
  · simp
  · rfl

@[simp] theorem setVideoTime_state_calls (newTime : ℚ) (s : Viewer) :
    (setVideoTime newTime s).state.calls = s.calls := by
  unfold setVideoTime
  split
  · simp
  · rfl

@[simp] theorem setCurrentBlackboxTime_state_graphState (newTime : ℚ) (s : Viewer) :
    (setCurrentBlackboxTime newTime s).state.graphState = s.graphState := by
  unfold setCurrentBlackboxTime
  split
  · split
    · rw [state_andThen_proj (fun s => s.graphState) _ _ (fun s => by simp [Outcome.state])]
      simp
    · rfl
  · simp [Outcome.state]

@[simp] theorem setCurrentBlackboxTime_state_lastRenderTime (newTime : ℚ) (s : Viewer) :
    (setCurrentBlackboxTime newTime s).state.lastRenderTime = s.lastRenderTime := by
  unfold setCurrentBlackboxTime
  split
  · split
    · rw [state_andThen_proj (fun s => s.lastRenderTime) _ _ (fun s => by simp [Outcome.state])]
      simp
    · rfl
  · simp [Outcome.state]

@[simp] theorem setCurrentBlackboxTime_state_flightLog (newTime : ℚ) (s : Viewer) :
    (setCurrentBlackboxTime newTime s).state.flightLog = s.flightLog := by
  unfold setCurrentBlackboxTime
  split
  · split
    · rw [state_andThen_proj (fun s => s.flightLog) _ _ (fun s => by simp [Outcome.state])]
      simp
    · rfl
  · simp [Outcome.state]

@[simp] theorem setCurrentBlackboxTime_state_graph (newTime : ℚ) (s : Viewer) :
    (setCurrentBlackboxTime newTime s).state.graph = s.graph := by
  unfold setCurrentBlackboxTime
  split
  · split
    · rw [state_andThen_proj (fun s => s.graph) _ _ (fun s => by simp [Outcome.state])]
      simp
    · rfl
  · simp [Outcome.state]

@[simp] theorem setCurrentBlackboxTime_state_hasVideo (newTime : ℚ) (s : Viewer) :
    (setCurrentBlackboxTime newTime s).state.hasVideo = s.hasVideo := by
  unfold setCurrentBlackboxTime
  split
  · split
    · rw [state_andThen_proj (fun s => s.hasVideo) _ _ (fun s => by simp [Outcome.state])]
      simp
    · rfl
  · simp [Outcome.state]

@[simp] theorem setCurrentBlackboxTime_state_hasLog (newTime : ℚ) (s : Viewer) :
    (setCurrentBlackboxTime newTime s).state.hasLog = s.hasLog := by
  unfold setCurrentBlackboxTime
  split
  · split
    · rw [state_andThen_proj (fun s => s.hasLog) _ _ (fun s => by simp [Outcome.state])]
      simp
    · rfl
  · simp [Outcome.state]

@[simp] theorem setCurrentBlackboxTime_state_videoOffset (newTime : ℚ) (s : Viewer) :
    (setCurrentBlackboxTime newTime s).state.videoOffset = s.videoOffset := by
  unfold setCurrentBlackboxTime
  split
  · split
    · rw [state_andThen_proj (fun s => s.videoOffset) _ _ (fun s => by simp [Outcome.state])]
      simp
    · rfl
  · simp [Outcome.state]

@[simp] theorem setCurrentBlackboxTime_state_videoExportInTime (newTime : ℚ) (s : Viewer) :
    (setCurrentBlackboxTime newTime s).state.videoExportInTime = s.videoExportInTime := by
  unfold setCurrentBlackboxTime
  split
  · split
    · rw [state_andThen_proj (fun s => s.videoExportInTime) _ _ (fun s => by simp [Outcome.state])]
      simp
    · rfl
  · simp [Outcome.state]

@[simp] theorem setCurrentBlackboxTime_state_videoExportOutTime (newTime : ℚ) (s : Viewer) :
    (setCurrentBlackboxTime newTime s).state.videoExportOutTime = s.videoExportOutTime := by
  unfold setCurrentBlackboxTime
  split
  · split
    · rw [state_andThen_proj (fun s => s.videoExportOutTime) _ _ (fun s => by simp [Outcome.state])]
      simp
    · rfl
  · simp [Outcome.state]

@[simp] theorem setCurrentBlackboxTime_state_graphRendersCount (newTime : ℚ) (s : Viewer) :
    (setCurrentBlackboxTime newTime s).state.graphRendersCount = s.graphRendersCount := by
  unfold setCurrentBlackboxTime
  split
  · split
    · rw [state_andThen_proj (fun s => s.graphRendersCount) _ _ (fun s => by simp [Outcome.state])]
      simp
    · rfl
  · simp [Outcome.state]

@[simp] theorem setCurrentBlackboxTime_state_playbackRate (newTime : ℚ) (s : Viewer) :
    (setCurrentBlackboxTime newTime s).state.playbackRate = s.playbackRate := by
  unfold setCurrentBlackboxTime
  split
  · split
    · rw [state_andThen_proj (fun s => s.playbackRate) _ _ (fun s => by simp [Outcome.state])]
      simp
    · rfl
  · simp [Outcome.state]

@[simp] theorem setCurrentBlackboxTime_state_graphZoom (newTime : ℚ) (s : Viewer) :
    (setCurrentBlackboxTime newTime s).state.graphZoom = s.graphZoom := by
  unfold setCurrentBlackboxTime
  split
  · split
    · rw [state_andThen_proj (fun s => s.graphZoom) _ _ (fun s => by simp [Outcome.state])]
      simp
    · rfl
  · simp [Outcome.state]

@[simp] theorem setCurrentBlackboxTime_state_calls (newTime : ℚ) (s : Viewer) :
    (setCurrentBlackboxTime newTime s).state.calls = s.calls := by
  unfold setCurrentBlackboxTime
  split
  · split
    · rw [state_andThen_proj (fun s => s.calls) _ _ (fun s => by simp [Outcome.state])]
      simp
    · rfl
  · simp [Outcome.state]

/-! ## Video-only operations without a video -/

/-- C11: the code at the failing input.  With `tenSecondLog` loaded, no video loaded (the
`<video>` element has no media and `hasVideo` is false) and the viewer playing at 5 s, a
click on `.video-jump-end`, which is guarded, changes neither `currentBlackboxTime` nor
`graphState`, while a click on `.video-jump-start`, which is not, moves
`currentBlackboxTime` to 0 and sets the state to PAUSED. -/
theorem videoJumpStart_without_video_changes_state :
    (runOps noVideoPlayingOps (initialViewer (some emptyVideo))).hasVideo = false ∧
    (runOps noVideoPlayingOps (initialViewer (some emptyVideo))).currentBlackboxTime = 5000000 ∧
    (runOps noVideoPlayingOps (initialViewer (some emptyVideo))).graphState = GRAPH_STATE_PLAY ∧
    (runOps (noVideoPlayingOps ++ [.videoJumpEnd])
      (initialViewer (some emptyVideo))).currentBlackboxTime = 5000000 ∧
    (runOps (noVideoPlayingOps ++ [.videoJumpEnd])
      (initialViewer (some emptyVideo))).graphState = GRAPH_STATE_PLAY ∧
    (runOps (noVideoPlayingOps ++ [.videoJumpStart])
      (initialViewer (some emptyVideo))).currentBlackboxTime = 0 ∧
    (runOps (noVideoPlayingOps ++ [.videoJumpStart])
      (initialViewer (some emptyVideo))).graphState = GRAPH_STATE_PAUSED := by
  norm_num [noVideoPlayingOps, emptyVideo, tenSecondLog, runOps, step, runOp, initialViewer,
    loadLogFile, selectLog, createGraph, setVideoInTime, setVideoOutTime, invalidateGraph,
    renderSelectedLogInfo, updateCanvasSize, setGraphState, setGraphZoom, Outcome.andThen,
    Outcome.state, runAnimationFrame, animationLoop, updateTime, renderAndContinue,
    logPlayPause, playbackDelta, setCurrentBlackboxTime, videoJumpStart, videoJumpEnd,
    setVideoTime, syncLogToVideo, blackboxTimeFromVideoTime, GRAPH_STATE_PAUSED,
    GRAPH_STATE_PLAY, GRAPH_DEFAULT_ZOOM, GRAPH_MIN_ZOOM, GRAPH_MAX_ZOOM,
    PLAYBACK_DEFAULT_RATE]

/-! ## Seeking -/

/-- After `invalidateGraph` a tick is pending. -/
theorem invalidateGraph_requests_tick (s : Viewer) :
    (invalidateGraph s).animationFrameIsQueued = true ∧
    (invalidateGraph s).pendingFrames =
      if s.animationFrameIsQueued = true then s.pendingFrames else s.pendingFrames + 1 := by
  cases hq : s.animationFrameIsQueued <;> simp [invalidateGraph, hq]

/-- C12: `setCurrentBlackboxTime(x)` does not clamp.  Without video it sets
`currentBlackboxTime` to `x` for every `x`; with a video (and a log) it sets
`video.currentTime` to `(x - minTime) / 1000000 + videoOffset`.  In both cases it returns,
`graphState`, `playbackRate`, `videoOffset` and both markers are as before, and the call
ends in `invalidateGraph`, so that a tick is pending afterwards (one more only when none
was pending). -/
theorem setCurrentBlackboxTime_does_not_clamp :
    (∀ (x : ℚ) (s : Viewer), s.hasVideo = false →
      ∃ s1, setCurrentBlackboxTime x s = .ok s1 ∧
        s1 = invalidateGraph { s with currentBlackboxTime := x } ∧
        s1.currentBlackboxTime = x ∧ s1.graphState = s.graphState ∧
        s1.playbackRate = s.playbackRate ∧ s1.videoOffset = s.videoOffset ∧
        s1.videoExportInTime = s.videoExportInTime ∧
        s1.videoExportOutTime = s.videoExportOutTime ∧
        s1.animationFrameIsQueued = true ∧
        s1.pendingFrames =
          if s.animationFrameIsQueued = true then s.pendingFrames else s.pendingFrames + 1) ∧
    (∀ (x : ℚ) (s : Viewer) (v : Video) (fl : FlightLog),
      s.hasVideo = true → s.video = some v → s.flightLog = some fl →
      ∃ s1, setCurrentBlackboxTime x s = .ok s1 ∧
        s1.video = some { v with currentTime := (x - fl.minTime) / 1000000 + s.videoOffset } ∧
        s1.graphState = s.graphState ∧
        s1.playbackRate = s.playbackRate ∧ s1.videoOffset = s.videoOffset ∧
        s1.videoExportInTime = s.videoExportInTime ∧
        s1.videoExportOutTime = s.videoExportOutTime ∧
        s1.animationFrameIsQueued = true ∧
        s1.pendingFrames =
          if s.animationFrameIsQueued = true then s.pendingFrames else s.pendingFrames + 1) := by
  constructor
  · intro x s hv
    have h := invalidateGraph_requests_tick { s with currentBlackboxTime := x }
    refine ⟨_, by simp [setCurrentBlackboxTime, hv], rfl, by simp, by simp, by simp, by simp,
      by simp, by simp, h.1, h.2⟩
  · intro x s v fl hv hvid hfl
    by_cases hl : s.hasLog = true
    · have h := invalidateGraph_requests_tick { s with
        video := some { v with currentTime := (x - fl.minTime) / 1000000 + s.videoOffset }
        currentBlackboxTime :=
          ((x - fl.minTime) / 1000000 + s.videoOffset - s.videoOffset) * 1000000 + fl.minTime }
      refine ⟨_, ?_, by simp, by simp, by simp, by simp, by simp, by simp, h.1, h.2⟩
      simp [setCurrentBlackboxTime, syncLogToVideo, blackboxTimeFromVideoTime,
        Outcome.andThen, hv, hvid, hfl, hl]
    · have h := invalidateGraph_requests_tick { s with
        video := some { v with currentTime := (x - fl.minTime) / 1000000 + s.videoOffset } }
      refine ⟨_, ?_, by simp, by simp, by simp, by simp, by simp, by simp, h.1, h.2⟩
      simp [setCurrentBlackboxTime, syncLogToVideo, Outcome.andThen, hv, hvid, hfl, hl]

/-- Witness of C12: a seek past the end of the log without video, and a seek before the
start of the log with `demoVideo` attached. -/
theorem setCurrentBlackboxTime_does_not_clamp_witness :
    (∃ s1, setCurrentBlackboxTime 10100000 playingViewer = .ok s1 ∧
      s1.currentBlackboxTime = 10100000 ∧ s1.graphState = playingViewer.graphState) ∧
    (∃ s1, setCurrentBlackboxTime 0 demoViewerWithVideo = .ok s1 ∧
      s1.video = some { demoVideo with
        currentTime := (0 - demoLog.minTime) / 1000000 + demoViewerWithVideo.videoOffset }) := by
  obtain ⟨s1, e1, -, t1, g1, -⟩ :=
    setCurrentBlackboxTime_does_not_clamp.1 10100000 playingViewer rfl
  obtain ⟨s2, e2, v2, -⟩ :=
    setCurrentBlackboxTime_does_not_clamp.2 0 demoViewerWithVideo demoVideo demoLog rfl rfl rfl
  exact ⟨⟨s1, e1, t1, g1⟩, ⟨s2, e2, v2⟩⟩

/-! ## Continuation of the tick -/

/-- The time update leaves a state other than PLAY as it is. -/
theorem updateTime_graphState_of_not_play (now : ℤ) (s s1 : Viewer)
    (hp : s.graphState ≠ GRAPH_STATE_PLAY) (h : updateTime now s = .ok s1) :
    s1.graphState = s.graphState := by
  unfold updateTime at h
  by_cases hv : s.hasVideo = true
  · rw [if_pos hv] at h
    cases hb : blackboxTimeFromVideoTime s with
    | none => simp [hb] at h
    | some t =>
      simp only [hb, Except.ok.injEq] at h
      rw [← h]
  · rw [if_neg hv, if_neg hp] at h
    simp only [Except.ok.injEq] at h
    rw [← h]

/-- A pending tick on a viewer that satisfies the invariant and has a graph: the time
update returns, and the tick is the continuation applied to its result, with no callback
left over from before. -/
theorem runAnimationFrame_with_graph (now : ℤ) (s : Viewer) (h : Inv s)
    (hg : s.graph = true) (hp : s.pendingFrames ≠ 0) :
    ∃ s1, updateTime now { s with pendingFrames := s.pendingFrames - 1 } = .ok s1 ∧
      runAnimationFrame now s = .ok (renderAndContinue now s1) ∧ s1.pendingFrames = 0 := by
  obtain ⟨hw, ⟨h4, h5⟩, -⟩ := h
  have hp1 : s.pendingFrames = 1 := by omega
  have hq : s.animationFrameIsQueued = true := h5.mpr hp1
  obtain ⟨s1, e1, -, -, -, -, -, -, p1, -⟩ :=
    updateTime_ok now { s with pendingFrames := s.pendingFrames - 1 } hw hg hq
  refine ⟨s1, e1, ?_, by rw [p1]; simp [hp1]⟩
  unfold runAnimationFrame animationLoop
  rw [if_neg hp, if_neg (by simp [hg]), e1]
  rfl

/-- C13: in a state the viewer can reach, a pending tick that runs with a graph present
completes its time update; if `graphState` is PLAY at the end of the time update the tick
schedules exactly one next tick, records `lastRenderTime = now` and keeps the flag set; in
any other state (PAUSED included) it schedules nothing and clears
`animationFrameIsQueued`, and no tick runs from then on until something is scheduled
again.  After `setGraphState(GRAPH_STATE_PAUSED)` issued while a tick is pending that one
tick is still pending, it runs, and afterwards nothing is scheduled. -/
theorem tick_continuation_and_drain (ops : List Op) (video : Option Video) (now : ℤ)
    (s : Viewer) (hs : s = runOps ops (initialViewer video)) (hp : s.pendingFrames ≠ 0) :
    (s.graph = true →
      ∃ s1, updateTime now { s with pendingFrames := s.pendingFrames - 1 } = .ok s1 ∧
        runAnimationFrame now s = .ok (renderAndContinue now s1) ∧
        (s1.graphState = GRAPH_STATE_PLAY →
          (renderAndContinue now s1).pendingFrames = 1 ∧
          (renderAndContinue now s1).lastRenderTime = some now ∧
          (renderAndContinue now s1).animationFrameIsQueued = true) ∧
        (s1.graphState ≠ GRAPH_STATE_PLAY →
          (renderAndContinue now s1).pendingFrames = 0 ∧
          (renderAndContinue now s1).animationFrameIsQueued = false ∧
          ∀ later : ℤ, runAnimationFrame later (renderAndContinue now s1) =
            .ok (renderAndContinue now s1))) ∧
    (∃ s1 s2, setGraphState GRAPH_STATE_PAUSED s = .ok s1 ∧ s1.pendingFrames = 1 ∧
      runAnimationFrame now s1 = .ok s2 ∧ s2.pendingFrames = 0 ∧
      s2.animationFrameIsQueued = false ∧
      ∀ later : ℤ, runAnimationFrame later s2 = .ok s2) := by
  have hinv : Inv s := by
    rw [hs]
    exact inv_reachable ops video
  have cont : ∀ s : Viewer, Inv s → s.pendingFrames ≠ 0 → s.graph = true →
      ∃ s1, updateTime now { s with pendingFrames := s.pendingFrames - 1 } = .ok s1 ∧
        runAnimationFrame now s = .ok (renderAndContinue now s1) ∧
        (s1.graphState = GRAPH_STATE_PLAY →
          (renderAndContinue now s1).pendingFrames = 1 ∧
          (renderAndContinue now s1).lastRenderTime = some now ∧
          (renderAndContinue now s1).animationFrameIsQueued = true) ∧
        (s1.graphState ≠ GRAPH_STATE_PLAY →
          (renderAndContinue now s1).pendingFrames = 0 ∧
          (renderAndContinue now s1).animationFrameIsQueued = false ∧
          ∀ later : ℤ, runAnimationFrame later (renderAndContinue now s1) =
            .ok (renderAndContinue now s1)) := by
    intro s hinv hp hg
    obtain ⟨s1, e1, e2, p1⟩ := runAnimationFrame_with_graph now s hinv hg hp
    refine ⟨s1, e1, e2, ?_, ?_⟩
    · intro hplay
      obtain ⟨l, q, p⟩ := renderAndContinue_play now s1 hplay
      exact ⟨by rw [p, p1], l, q⟩
    · intro hstop
      obtain ⟨-, q, p⟩ := renderAndContinue_stop now s1 hstop
      have p0 : (renderAndContinue now s1).pendingFrames = 0 := by rw [p, p1]
      refine ⟨p0, q, ?_⟩
      intro later
      unfold runAnimationFrame
      rw [if_pos p0]
  refine ⟨cont s hinv hp, ?_⟩
  have hp1 : s.pendingFrames = 1 := by
    have := hinv.2.1.1
    omega
  have hq : s.animationFrameIsQueued = true := hinv.2.1.2.mpr hp1
  have hinv1 := inv_setGraphState GRAPH_STATE_PAUSED s hinv
  have hok : ∃ s1, setGraphState GRAPH_STATE_PAUSED s = .ok s1 ∧ s1.pendingFrames = 1 := by
    by_cases hv : s.hasVideo = true
    · obtain ⟨v, hvid⟩ := Option.isSome_iff_exists.mp (hinv.1.2.1 hv)
      refine ⟨invalidateGraph { s with
        graphState := GRAPH_STATE_PAUSED
        lastRenderTime := none
        video := some { v with paused := true } },
        by simp [setGraphState, GRAPH_STATE_PAUSED, GRAPH_STATE_PLAY, hv, hvid], ?_⟩
      rw [(invalidateGraph_requests_tick _).2]
      simp [hq, hp1]
    · have hv0 : s.hasVideo = false := by simpa using hv
      refine ⟨_, setGraphState_no_video GRAPH_STATE_PAUSED s hv0, ?_⟩
      rw [(invalidateGraph_requests_tick _).2]
      simp [hq, hp1]
  obtain ⟨s1, e1, p1⟩ := hok
  have hst : (setGraphState GRAPH_STATE_PAUSED s).state = s1 := by rw [e1]; rfl
  rw [hst] at hinv1
  have hgs : s1.graphState = GRAPH_STATE_PAUSED := by
    rw [← hst]
    simp
  have hp1n : s1.pendingFrames ≠ 0 := by omega
  by_cases hg : s1.graph = true
  · obtain ⟨s2, u2, e2, -, hstop⟩ := cont s1 hinv1 hp1n hg
    have hnp : s2.graphState ≠ GRAPH_STATE_PLAY := by
      rw [updateTime_graphState_of_not_play now _ s2 (by simp [hgs, GRAPH_STATE_PAUSED,
        GRAPH_STATE_PLAY]) u2]
      simp [hgs, GRAPH_STATE_PAUSED, GRAPH_STATE_PLAY]
    obtain ⟨p0, q0, hlater⟩ := hstop hnp
    exact ⟨s1, _, e1, p1, e2, p0, q0, hlater⟩
  · have hg0 : s1.graph = false := by simpa using hg
    refine ⟨s1, { s1 with pendingFrames := s1.pendingFrames - 1, animationFrameIsQueued := false },
      e1, p1, ?_, by simp [p1], rfl, ?_⟩
    · unfold runAnimationFrame animationLoop
      rw [if_neg hp1n, if_pos (by simp [hg0])]
    · intro later
      unfold runAnimationFrame
      rw [if_pos (by simp [p1])]

/-- Witness of C13 after `playingOps`, where a tick is pending: the tick at 2000 ms
continues, and after `setGraphState(GRAPH_STATE_PAUSED)` the pending tick drains. -/
theorem tick_continuation_and_drain_witness :
    (∃ s1, updateTime 2000 { runOps playingOps (initialViewer none) with
        pendingFrames := (runOps playingOps (initialViewer none)).pendingFrames - 1 } = .ok s1 ∧
      runAnimationFrame 2000 (runOps playingOps (initialViewer none)) =
        .ok (renderAndContinue 2000 s1)) ∧
    (∃ s1 s2, setGraphState GRAPH_STATE_PAUSED (runOps playingOps (initialViewer none)) = .ok s1 ∧
      s1.pendingFrames = 1 ∧ runAnimationFrame 2000 s1 = .ok s2 ∧ s2.pendingFrames = 0 ∧
      s2.animationFrameIsQueued = false ∧
      ∀ later : ℤ, runAnimationFrame later s2 = .ok s2) := by
  have h := tick_continuation_and_drain playingOps none 2000
    (runOps playingOps (initialViewer none)) rfl (by rw [playingOps_scheduled.1]; decide)
  obtain ⟨s1, u1, e1, -⟩ := h.1 playingOps_scheduled.2
  exact ⟨⟨s1, u1, e1⟩, h.2⟩

/-! ## Monotonic playback -/

/-- With a non-negative rate and a clock that did not run backwards the integration step
is not negative. -/
theorem playbackDelta_nonneg (now : ℤ) (lastRenderTime : Option ℤ) (playbackRate : ℚ)
    (hr : 0 ≤ playbackRate) (hl : ∀ last, lastRenderTime = some last → last ≤ now) :
    0 ≤ playbackDelta now lastRenderTime playbackRate := by
  unfold playbackDelta
  cases lastRenderTime with
  | none => exact le_refl 0
  | some last =>
    have h1 : (0 : ℚ) ≤ ((now - last : ℤ) : ℚ) := by
      have := hl last rfl
      exact_mod_cast sub_nonneg.mpr this
    simp only []
    rw [Int.floor_nonneg]
    positivity

/-- C14, as stated, fails: after `playingOps` a seek to 10001000, past the end of
`tenSecondLog`, is taken as it is; the viewer is still playing without video, the last
tick ran at 1000 ms, and the tick at 1016 ms brings `currentBlackboxTime` down to
10000000. -/
theorem playback_not_monotonic_counterexample :
    (runOps (playingOps ++ [.setCurrentBlackboxTime 10001000])
      (initialViewer none)).hasVideo = false ∧
    (runOps (playingOps ++ [.setCurrentBlackboxTime 10001000])
      (initialViewer none)).graphState = GRAPH_STATE_PLAY ∧
    (runOps (playingOps ++ [.setCurrentBlackboxTime 10001000])
      (initialViewer none)).lastRenderTime = some 1000 ∧
    (runOps (playingOps ++ [.setCurrentBlackboxTime 10001000])
      (initialViewer none)).currentBlackboxTime = 10001000 ∧
    (runOps (playingOps ++ [.setCurrentBlackboxTime 10001000, .animationFrame 1016])
      (initialViewer none)).currentBlackboxTime = 10000000 ∧
    ¬((runOps (playingOps ++ [.setCurrentBlackboxTime 10001000])
        (initialViewer none)).currentBlackboxTime ≤
      (runOps (playingOps ++ [.setCurrentBlackboxTime 10001000, .animationFrame 1016])
        (initialViewer none)).currentBlackboxTime) := by
  norm_num [playingOps, pausedOps, tenSecondLog, runOps, step, runOp, initialViewer,
    loadLogFile, selectLog, createGraph, setVideoInTime, setVideoOutTime, invalidateGraph,
    renderSelectedLogInfo, updateCanvasSize, setGraphState, setGraphZoom, Outcome.andThen,
    Outcome.state, runAnimationFrame, animationLoop, updateTime, renderAndContinue,
    logPlayPause, playbackDelta, setCurrentBlackboxTime, GRAPH_STATE_PAUSED, GRAPH_STATE_PLAY,
    GRAPH_DEFAULT_ZOOM, GRAPH_MIN_ZOOM, GRAPH_MAX_ZOOM, PLAYBACK_DEFAULT_RATE]

/-- C14, amended: in a state the viewer can reach, playing without video, a tick with
`now >= lastRenderTime` that starts with `currentBlackboxTime` at or before `maxTime`
returns with `currentBlackboxTime` at least what it was, and either keeps playing or has
set the time to `maxTime` and the state to PAUSED; a tick that starts beyond `maxTime`
sets the time to `maxTime` and the state to PAUSED. -/
theorem playback_monotonic_within_log (ops : List Op) (video : Option Video) (now : ℤ)
    (s : Viewer) (fl : FlightLog) (hs : s = runOps ops (initialViewer video))
    (hg : s.graph = true) (hv : s.hasVideo = false) (hp : s.graphState = GRAPH_STATE_PLAY)
    (hfl : s.flightLog = some fl)
    (hl : ∀ last, s.lastRenderTime = some last → last ≤ now) :
    (s.currentBlackboxTime ≤ fl.maxTime →
      ∃ s1, animationLoop now s = .ok s1 ∧ s.currentBlackboxTime ≤ s1.currentBlackboxTime ∧
        (s1.graphState = GRAPH_STATE_PLAY ∨
          (s1.graphState = GRAPH_STATE_PAUSED ∧ s1.currentBlackboxTime = fl.maxTime))) ∧
    (fl.maxTime < s.currentBlackboxTime →
      ∃ s1, animationLoop now s = .ok s1 ∧ s1.currentBlackboxTime = fl.maxTime ∧
        s1.graphState = GRAPH_STATE_PAUSED) := by
  have hinv : Inv s := by
    rw [hs]
    exact inv_reachable ops video
  have hrate : (0 : ℚ) ≤ s.playbackRate := by
    have h5 := hinv.2.2.1.1
    unfold PLAYBACK_MIN_RATE at h5
    linarith
  have hd : (0 : ℚ) ≤ (playbackDelta now s.lastRenderTime s.playbackRate : ℚ) := by
    exact_mod_cast playbackDelta_nonneg now s.lastRenderTime s.playbackRate hrate hl
  constructor
  · intro hstart
    rcases lt_or_le fl.maxTime
      (s.currentBlackboxTime + (playbackDelta now s.lastRenderTime s.playbackRate : ℚ))
      with hgt | hle
    · exact ⟨_, animationLoop_clamp now s fl hg hv hp hfl hgt, by simpa using hstart,
        Or.inr ⟨by simp, by simp⟩⟩
    · exact ⟨_, animationLoop_integrate now s fl hg hv hp hfl hle, by simpa using hd,
        Or.inl (by simp [hp])⟩
  · intro hpast
    exact ⟨_, animationLoop_clamp now s fl hg hv hp hfl (by linarith), by simp, by simp⟩

/-- Witness of the amended C14 after `playingOps`: the tick at 1500 ms. -/
theorem playback_monotonic_within_log_witness :
    ∃ s1, animationLoop 1500 (runOps playingOps (initialViewer none)) = .ok s1 ∧
      (runOps playingOps (initialViewer none)).currentBlackboxTime ≤ s1.currentBlackboxTime ∧
      (s1.graphState = GRAPH_STATE_PLAY ∨
        (s1.graphState = GRAPH_STATE_PAUSED ∧
          s1.currentBlackboxTime = tenSecondLog.maxTime)) :=
  (playback_monotonic_within_log playingOps none 1500 (runOps playingOps (initialViewer none))
    tenSecondLog rfl playingOps_scheduled.2 playingOps_state.1 playingOps_state.2.1
    playingOps_state.2.2.2.2.1
    (by
      intro last h
      rw [playingOps_state.2.2.2.1] at h
      have h2 := Option.some.inj h
      omega)).1
    (by rw [playingOps_state.2.2.2.2.2]; norm_num [tenSecondLog])

/-! ## The reset of `lastRenderTime` -/

/-- A property of the state that `g` preserves and that holds after `r` holds after
`r.andThen g`. -/
theorem pred_andThen (P : Viewer → Prop) (r : Outcome) (g : Viewer → Outcome)
    (hr : P r.state) (hg : ∀ s, P s → P (g s).state) : P (r.andThen g).state := by
  cases r with
  | ok s => exact hg s hr
  | error s => exact hr

theorem setGraphZoom_lastRenderTime (zoom : ℚ) (s : Viewer) :
    (setGraphZoom zoom s).lastRenderTime = s.lastRenderTime := by
  unfold setGraphZoom
  split
  · simp only []
    split
    · simp
    · rfl
  · rfl

theorem updateCanvasSize_lastRenderTime (s : Viewer) :
    (updateCanvasSize s).lastRenderTime = s.lastRenderTime := by
  unfold updateCanvasSize
  split
  · simp
  · rfl

theorem renderSelectedLogInfo_lastRenderTime (s : Viewer) :
    (renderSelectedLogInfo s).state.lastRenderTime = s.lastRenderTime := by
  unfold renderSelectedLogInfo
  split <;> rfl

theorem selectLog_lastRenderTime (opened : Option FlightLog) (s : Viewer)
    (h : s.lastRenderTime = none) : (selectLog opened s).state.lastRenderTime = none := by
  unfold selectLog
  split
  · rename_i fl0 fl hfl0
    have h4 : (setVideoOutTime none (setVideoInTime none
        (createGraph { s with flightLog := some fl }))).lastRenderTime = none := by
      simp only [setVideoOutTime_lastRenderTime, setVideoInTime_lastRenderTime, createGraph]
      split <;> exact h
    simp only []
    generalize setVideoOutTime none (setVideoInTime none
        (createGraph { s with flightLog := some fl })) = s4 at h4
    apply pred_andThen (fun s => s.lastRenderTime = none)
    · by_cases hv : s4.hasVideo = true
      · rw [if_pos hv]
        simpa using h4
      · rw [if_neg hv]
        exact h4
    · intro s5 h5
      apply pred_andThen (fun s => s.lastRenderTime = none)
      · rw [renderSelectedLogInfo_lastRenderTime]
        exact h5
      · intro s6 _
        apply pred_andThen (fun s => s.lastRenderTime = none)
        · simp
        · intro s7 h7
          simpa [Outcome.state, setGraphZoom_lastRenderTime] using h7
  · exact h

/-- The only operation that can set `lastRenderTime` is a tick that runs with a graph
while the state is PLAY. -/
theorem step_lastRenderTime (s : Viewer) (op : Op) (h : s.lastRenderTime = none) :
    (step s op).lastRenderTime = none ∨
      ∃ now, op = .animationFrame now ∧ s.graph = true ∧ s.graphState = GRAPH_STATE_PLAY := by
  have seek : ∀ (r : Outcome), r.state.lastRenderTime = none →
      (r.andThen (setGraphState GRAPH_STATE_PAUSED)).state.lastRenderTime = none := by
    intro r hr
    exact pred_andThen (fun s => s.lastRenderTime = none) r _ hr (fun s _ => by simp)
  unfold step
  cases op with
  | animationFrame now =>
    by_cases hg : s.graph = true
    · by_cases hp : s.graphState = GRAPH_STATE_PLAY
      · exact Or.inr ⟨now, rfl, hg, hp⟩
      · left
        simp only [runOp, runAnimationFrame]
        split
        · exact h
        · unfold animationLoop
          rw [if_neg (by simp [hg])]
          cases hu : updateTime now { s with pendingFrames := s.pendingFrames - 1 } with
          | error e =>
            unfold updateTime at hu
            simp only [hp, if_false] at hu
            split at hu
            · split at hu
              · exact Except.noConfusion hu
              · simp only [Except.error.injEq] at hu
                simp only [Outcome.andThen, Outcome.state]
                rw [← hu]
                exact h
            · exact Except.noConfusion hu
          | ok s1 =>
            have hg1 := updateTime_graphState_of_not_play now _ s1 (by simpa using hp) hu
            have hl1 : s1.lastRenderTime = none := by
              unfold updateTime at hu
              simp only [hp, if_false] at hu
              split at hu
              · split at hu
                · simp only [Except.ok.injEq] at hu
                  rw [← hu]
                  exact h
                · exact Except.noConfusion hu
              · simp only [Except.ok.injEq] at hu
                rw [← hu]
                exact h
            simp only [Outcome.andThen, Outcome.state]
            rw [(renderAndContinue_stop now s1 (by rw [hg1]; exact hp)).1]
            exact hl1
    · left
      have hg0 : s.graph = false := by simpa using hg
      simp only [runOp, runAnimationFrame]
      split
      · exact h
      · unfold animationLoop
        rw [if_pos (by simp [hg0])]
        exact h
  | loadLogFile parsed opened =>
    left
    simp only [runOp, loadLogFile]
    split
    · exact selectLog_lastRenderTime _ _ h
    · exact h
  | selectLog opened =>
    left
    simp only [runOp]
    split
    · exact selectLog_lastRenderTime _ _ h
    · exact h
  | loadVideo =>
    left
    simp only [runOp, loadVideo]
    split
    · simpa [Outcome.state] using h
    · exact h
  | videoLoaded =>
    left
    simp only [runOp, videoLoaded]
    split
    · simp
    · exact h
  | videoElement v =>
    left
    simp only [runOp]
    split <;> exact h
  | updateCanvasSize =>
    left
    simpa [runOp, Outcome.state, updateCanvasSize_lastRenderTime] using h
  | graphOnSeek offset =>
    left
    simp only [runOp]
    split
    · unfold graphOnSeek
      apply pred_andThen (fun s => s.lastRenderTime = none)
      · split
        · split
          · simpa using h
          · exact h
        · simpa using h
      · intro s1 h1
        simpa [Outcome.state] using h1
    · exact h
  | logJumpBack =>
    left
    simp only [runOp, logJumpBack]
    apply seek
    split
    · split
      · simpa using h
      · exact h
    · simpa using h
  | logJumpForward =>
    left
    simp only [runOp, logJumpForward]
    apply seek
    split
    · split
      · simpa using h
      · exact h
    · simpa using h
  | logJumpStart =>
    left
    simp only [runOp, logJumpStart]
    split
    · apply seek
      simpa using h
    · exact h
  | logJumpEnd =>
    left
    simp only [runOp, logJumpEnd]
    split
    · apply seek
      simpa using h
    · exact h
  | videoJumpStart =>
    left
    simp only [runOp, videoJumpStart]
    apply seek
    simpa using h
  | videoJumpEnd =>
    left
    simp only [runOp, videoJumpEnd]
    split
    · split
      · split
        · apply seek
          simpa using h
        · exact h
      · exact h
    · exact h
  | logPlayPause =>
    left
    simp only [runOp, logPlayPause]
    split <;> simp
  | logSyncHere =>
    left
    simp only [runOp, logSyncHere]
    split
    · simpa [Outcome.state, setVideoOffset] using h
    · exact h
  | logSyncBack =>
    left
    simpa [runOp, Outcome.state, logSyncBack, setVideoOffset] using h
  | logSyncForward =>
    left
    simpa [runOp, Outcome.state, logSyncForward, setVideoOffset] using h
  | videoOffsetChange offset =>
    left
    simp only [runOp, videoOffsetChange, Outcome.state]
    split
    · simpa using h
    · exact h
  | keydown which shiftKey ctrlKey metaKey inModal =>
    left
    simp only [runOp, keydown, Outcome.state]
    split_ifs <;> simpa using h
  | graphPresetChange =>
    left
    simpa [runOp, Outcome.state, graphPresetChange] using h
  | layoutPresetChange =>
    left
    simp only [runOp, layoutPresetChange]
    split
    · simpa [Outcome.state] using h
    · exact h
  | showVideoExportDialog =>
    left
    simp only [runOp, showVideoExportDialog]
    apply pred_andThen (fun s => s.lastRenderTime = none)
    · simp
    · intro s1 h1
      split <;> exact h1
  | invalidateGraph =>
    left
    simpa [runOp, Outcome.state] using h
  | setGraphState newState =>
    left
    simp [runOp]
  | setCurrentBlackboxTime newTime =>
    left
    simpa [runOp] using h
  | setVideoOffset offset =>
    left
    simpa [runOp, Outcome.state, setVideoOffset] using h
  | setVideoInTime inTime =>
    left
    simpa [runOp, Outcome.state] using h
  | setVideoOutTime outTime =>
    left
    simpa [runOp, Outcome.state] using h
  | setPlaybackRate rate =>
    left
    simpa [runOp, Outcome.state] using h
  | setGraphZoom zoom =>
    left
    simpa [runOp, Outcome.state, setGraphZoom_lastRenderTime] using h

/-- C15, as stated, fails: after `pastEndOps` the viewer plays without video,
`lastRenderTime` is `false` since the last `setGraphState`, and `currentBlackboxTime` is
10100000; the first tick, at 5000 ms, uses `delta = 0` and still changes
`currentBlackboxTime`, to 10000000. -/
theorem first_tick_after_setGraphState_counterexample :
    (runOps pastEndOps (initialViewer none)).hasVideo = false ∧
    (runOps pastEndOps (initialViewer none)).graphState = GRAPH_STATE_PLAY ∧
    (runOps pastEndOps (initialViewer none)).lastRenderTime = none ∧
    (runOps pastEndOps (initialViewer none)).pendingFrames = 1 ∧
    playbackDelta 5000 (runOps pastEndOps (initialViewer none)).lastRenderTime
      (runOps pastEndOps (initialViewer none)).playbackRate = 0 ∧
    (runOps pastEndOps (initialViewer none)).currentBlackboxTime = 10100000 ∧
    (runOps (pastEndOps ++ [.animationFrame 5000])
      (initialViewer none)).currentBlackboxTime = 10000000 ∧
    (runOps (pastEndOps ++ [.animationFrame 5000]) (initialViewer none)).currentBlackboxTime ≠
      (runOps pastEndOps (initialViewer none)).currentBlackboxTime := by
  norm_num [pastEndOps, pausedOps, tenSecondLog, runOps, step, runOp, initialViewer,
    loadLogFile, selectLog, createGraph, setVideoInTime, setVideoOutTime, invalidateGraph,
    renderSelectedLogInfo, updateCanvasSize, setGraphState, setGraphZoom, Outcome.andThen,
    Outcome.state, runAnimationFrame, animationLoop, updateTime, renderAndContinue,
    logPlayPause, logJumpEnd, logJumpForward, playbackDelta, setCurrentBlackboxTime,
    SMALL_JUMP_TIME, GRAPH_STATE_PAUSED, GRAPH_STATE_PLAY, GRAPH_DEFAULT_ZOOM, GRAPH_MIN_ZOOM,
    GRAPH_MAX_ZOOM, PLAYBACK_DEFAULT_RATE]

/-- C15, amended: `setGraphState(s)`, for every `s` and with or without a video, leaves
`lastRenderTime` at `false`, and it stays `false` until a tick runs with a graph in state
PLAY; with `lastRenderTime` at `false` the integration step is 0 whatever the wall time
and the rate are; so the first PLAY tick without video after a `setGraphState` call
leaves `currentBlackboxTime` as it is when it is at or before `maxTime`, and sets it to
`maxTime` and the state to PAUSED when it is beyond `maxTime`. -/
theorem setGraphState_resets_lastRenderTime :
    (∀ (n : Nat) (s : Viewer), (setGraphState n s).state.lastRenderTime = none) ∧
    (∀ (s : Viewer) (op : Op), s.lastRenderTime = none →
      (step s op).lastRenderTime = none ∨
        ∃ now, op = .animationFrame now ∧ s.graph = true ∧ s.graphState = GRAPH_STATE_PLAY) ∧
    (∀ (now : ℤ) (rate : ℚ), playbackDelta now none rate = 0) ∧
    (∀ (now : ℤ) (s : Viewer) (fl : FlightLog),
      s.graph = true → s.hasVideo = false → s.graphState = GRAPH_STATE_PLAY →
      s.lastRenderTime = none → s.flightLog = some fl →
      (s.currentBlackboxTime ≤ fl.maxTime →
        ∃ s1, animationLoop now s = .ok s1 ∧
          s1.currentBlackboxTime = s.currentBlackboxTime) ∧
      (fl.maxTime < s.currentBlackboxTime →
        ∃ s1, animationLoop now s = .ok s1 ∧ s1.currentBlackboxTime = fl.maxTime ∧
          s1.graphState = GRAPH_STATE_PAUSED)) := by
  refine ⟨fun n s => setGraphState_state_lastRenderTime n s, step_lastRenderTime,
    fun _ _ => rfl, ?_⟩
  intro now s fl hg hv hp hl hfl
  have hd : (playbackDelta now s.lastRenderTime s.playbackRate : ℚ) = 0 := by
    rw [hl]
    simp [playbackDelta]
  constructor
  · intro hle
    exact ⟨_, animationLoop_integrate now s fl hg hv hp hfl (by rw [hd]; simpa using hle),
      by simp [hd]⟩
  · intro hgt
    exact ⟨_, animationLoop_clamp now s fl hg hv hp hfl (by rw [hd]; simpa using hgt),
      by simp, by simp⟩

/-- Witness of the amended C15 on `justStartedViewer`: the first tick, long after the
call, leaves the time at 0; an operation other than a tick keeps `lastRenderTime` at
`false`. -/
theorem setGraphState_resets_lastRenderTime_witness :
    (∃ s1, animationLoop 999999 justStartedViewer = .ok s1 ∧
      s1.currentBlackboxTime = justStartedViewer.currentBlackboxTime) ∧
    ((step justStartedViewer (.setVideoOffset 1)).lastRenderTime = none ∨
      ∃ now, Op.setVideoOffset 1 = .animationFrame now ∧ justStartedViewer.graph = true ∧
        justStartedViewer.graphState = GRAPH_STATE_PLAY) :=
  ⟨(setGraphState_resets_lastRenderTime.2.2.2 999999 justStartedViewer tenSecondLog
      rfl rfl rfl rfl rfl).1
      (by norm_num [justStartedViewer, playingViewer, initialViewer, tenSecondLog]),
    setGraphState_resets_lastRenderTime.2.1 justStartedViewer (.setVideoOffset 1) rfl⟩

/-! ## The field-values table -/

/-- The row count `Math.ceil(fieldNames.length / 2)` as integer division. -/
theorem rowCount_eq (n : Nat) : ⌈(n : ℚ) / 2⌉₊ = (n + 1) / 2 := by
  rcases Nat.even_or_odd' n with ⟨k, rfl | rfl⟩
  · have h : ((2 * k : ℕ) : ℚ) / 2 = ((k : ℕ) : ℚ) := by
      push_cast
      ring
    rw [h, Nat.ceil_natCast]
    omega
  · have h3 : (2 * k + 1 + 1) / 2 = k + 1 := by omega
    rw [h3, Nat.ceil_eq_iff (by omega)]
    rw [Nat.add_sub_cancel]
    constructor
    · push_cast
      linarith
    · push_cast
      linarith

/-- The rows `updateValuesChart` emits when a frame is available. -/
theorem updateValuesChart_rows (n : Nat) :
    updateValuesChart true n = (List.range ((n + 1) / 2)).map fun i =>
      { first := i
        second := if i + (n + 1) / 2 < n then some (i + (n + 1) / 2) else none } := by
  simp [updateValuesChart, rowCount_eq]

/-- A field index is shown by row `i` when it is `i` or, the row having a second column,
`i + rowCount`. -/
theorem mem_shownFields (n j : Nat) :
    j ∈ shownFields (updateValuesChart true n) ↔
      ∃ i, i < (n + 1) / 2 ∧ (j = i ∨ (i + (n + 1) / 2 < n ∧ j = i + (n + 1) / 2)) := by
  rw [updateValuesChart_rows]
  simp only [shownFields, List.mem_flatMap, List.mem_map, List.mem_range]
  constructor
  · rintro ⟨r, ⟨i, hi, rfl⟩, hj⟩
    refine ⟨i, hi, ?_⟩
    simp only [ValuesRow.fields, List.mem_cons] at hj
    rcases hj with hj | hj
    · exact Or.inl hj
    · right
      by_cases h : i + (n + 1) / 2 < n
      · simp [h] at hj
        exact ⟨h, hj⟩
      · simp [h] at hj
  · rintro ⟨i, hi, hj⟩
    refine ⟨_, ⟨i, hi, rfl⟩, ?_⟩
    simp only [ValuesRow.fields, List.mem_cons]
    rcases hj with hj | ⟨h, hj⟩
    · exact Or.inl hj
    · right
      simp [h, hj]

theorem mem_shownFields_iff_lt (n j : Nat) :
    j ∈ shownFields (updateValuesChart true n) ↔ j < n := by
  rw [mem_shownFields]
  constructor
  · rintro ⟨i, hi, rfl | ⟨h, rfl⟩⟩
    · omega
    · exact h
  · intro hj
    by_cases h : j < (n + 1) / 2
    · exact ⟨j, h, Or.inl rfl⟩
    · exact ⟨j - (n + 1) / 2, by omega, Or.inr ⟨by omega, by omega⟩⟩

theorem nodup_shownFields (n : Nat) : (shownFields (updateValuesChart true n)).Nodup := by
  rw [updateValuesChart_rows]
  simp only [shownFields]
  rw [List.nodup_flatMap]
  constructor
  · intro r hr
    simp only [List.mem_map, List.mem_range] at hr
    obtain ⟨i, -, rfl⟩ := hr
    by_cases h : i + (n + 1) / 2 < n
    · have hne : i ≠ i + (n + 1) / 2 := by omega
      simp [ValuesRow.fields, h, hne]
    · simp [ValuesRow.fields, h]
  · rw [List.pairwise_map]
    refine List.Pairwise.imp_of_mem ?_ (List.pairwise_lt_range ((n + 1) / 2))
    intro a b ha hb hab
    simp only [List.mem_range] at ha hb
    simp only [Function.onFun, List.disjoint_left, ValuesRow.fields, List.mem_cons]
    intro x hx hx2
    have h1 : x = a ∨ x = a + (n + 1) / 2 := by
      rcases hx with hx | hx
      · exact Or.inl hx
      · right
        by_cases h : a + (n + 1) / 2 < n
        · simpa [h] using hx
        · simp [h] at hx
    have h2 : x = b ∨ x = b + (n + 1) / 2 := by
      rcases hx2 with hx | hx
      · exact Or.inl hx
      · right
        by_cases h : b + (n + 1) / 2 < n
        · simpa [h] using hx
        · simp [h] at hx
    omega

/-- C16: with a frame available and `n` main fields `updateValuesChart` emits
`ceil(n / 2)` rows; row `i` shows field `i` in its first column and field `i + rowCount`
in its second column exactly when `i + rowCount < n`; every field index below `n` is
shown exactly once and no other index is shown; and a row without a second column is the
last row. -/
theorem updateValuesChart_two_columns (n : Nat) :
    (updateValuesChart true n).length = ⌈(n : ℚ) / 2⌉₊ ∧
    (∀ i, i < ⌈(n : ℚ) / 2⌉₊ →
      (updateValuesChart true n)[i]? = some
        { first := i
          second := if i + ⌈(n : ℚ) / 2⌉₊ < n then some (i + ⌈(n : ℚ) / 2⌉₊) else none }) ∧
    (∀ j, (shownFields (updateValuesChart true n)).count j = if j < n then 1 else 0) ∧
    (∀ i row, (updateValuesChart true n)[i]? = some row → row.second = none →
      i + 1 = (updateValuesChart true n).length) := by
  have hrows := updateValuesChart_rows n
  have hlen : (updateValuesChart true n).length = (n + 1) / 2 := by
    rw [hrows]
    simp
  have hget : ∀ i, i < (n + 1) / 2 →
      (updateValuesChart true n)[i]? = some
        { first := i
          second := if i + (n + 1) / 2 < n then some (i + (n + 1) / 2) else none } := by
    intro i hi
    rw [hrows]
    simp [hi]
  refine ⟨by rw [hlen, rowCount_eq], ?_, ?_, ?_⟩
  · intro i hi
    rw [rowCount_eq] at hi ⊢
    exact hget i hi
  · intro j
    by_cases hj : j < n
    · rw [if_pos hj]
      exact List.count_eq_one_of_mem (nodup_shownFields n) ((mem_shownFields_iff_lt n j).mpr hj)
    · rw [if_neg hj]
      exact List.count_eq_zero_of_not_mem (fun h => hj ((mem_shownFields_iff_lt n j).mp h))
  · intro i row hrow hnone
    have hi : i < (n + 1) / 2 := by
      rw [← hlen]
      by_contra hge
      rw [List.getElem?_eq_none (by omega)] at hrow
      exact Option.noConfusion hrow
    rw [hget i hi] at hrow
    have hrow2 := Option.some.inj hrow
    rw [← hrow2] at hnone
    rw [hlen]
    by_cases h : i + (n + 1) / 2 < n
    · simp [h] at hnone
    · omega

/-- Witness of C16 for five fields: three rows, the last without a second column. -/
theorem updateValuesChart_two_columns_witness :
    (updateValuesChart true 5)[1]? = some
      { first := 1
        second := if 1 + ⌈((5 : ℕ) : ℚ) / 2⌉₊ < 5 then some (1 + ⌈((5 : ℕ) : ℚ) / 2⌉₊) else none } ∧
    2 + 1 = (updateValuesChart true 5).length :=
  ⟨(updateValuesChart_two_columns 5).2.1 1 (by rw [rowCount_eq]; decide),
    (updateValuesChart_two_columns 5).2.2.2 2 { first := 2, second := none }
      (by rw [updateValuesChart_rows]; decide) rfl⟩

end BlackboxLogViewer
